import Mathlib

/-!
Shallow embedding of the workflow graph-building and validation core of the
n8n-mcp-tools repository, together with proofs checking the specification's
claims against it.

The embedding covers:
* the node catalog (`nodeDefinitions`, `createNode`, `createNodeId`),
* the workflow templates file (`Templates.*`),
* the natural-language workflow generator (`Generator.*`:
  `parseWorkflowRequirements`, `determineRequiredNodes`,
  `createNodeStructure`, `createConnections`, `validateWorkflow`,
  `generateExplanations`, `generateSetupInstructions`, `generateWorkflow`),
* the rule-based validator of the common-infrastructure tool
  (`CommonInfra.applyValidationRules`),
* the template-application tool (`ApplyTemplateTool.applyTemplate`),
* the social-post workflow tool (`SocialPost.createSocialPostWorkflow`).

JavaScript objects are modeled as association lists in insertion order;
assigning to an existing key updates the value in place, assigning a fresh
key appends.  A thrown exception is modeled as `Except.error` carrying the
error message.  JavaScript truthiness is modeled explicitly where the code
relies on it.
-/

/-- JSON-like values, modelling the `Record<string, any>` parameter bags. -/
inductive JValue where
  | str (s : String)
  | num (n : Int)
  | bool (b : Bool)
  | arr (elems : List JValue)
  | obj (fields : List (String × JValue))
  | null
deriving Inhabited

/-- First-match lookup in an association list (JS property read on an object
whose keys are unique). -/
def lookupJ {α : Type} (l : List (String × α)) (k : String) : Option α :=
  (l.find? (fun e => e.1 == k)).map (fun e => e.2)

/-- JS object assignment `o[k] = v`: update the value in place when the key
exists, append a new entry otherwise (insertion-order semantics). -/
def upsert {α : Type} : List (String × α) → String → α → List (String × α)
  | [], k, v => [(k, v)]
  | e :: rest, k, v =>
    if e.1 == k then (k, v) :: rest else e :: upsert rest k v

/-- JS object-literal spread `{...a, ...b}` built by sequential assignment. -/
def spreadMerge (a b : List (String × JValue)) : List (String × JValue) :=
  (a ++ b).foldl (fun acc e => upsert acc e.1 e.2) []

/-- JS truthiness of a value (`undefined` is handled at `Option` level). -/
def jsTruthy : JValue → Bool
  | .str s => s != ""
  | .num n => n != 0
  | .bool b => b
  | .arr _ => true
  | .obj _ => true
  | .null => false

/-- `o || d` for an optional string: the default replaces both a missing and
a falsy (empty) value. -/
def jsOrStr (o : Option String) (d : String) : String :=
  match o with
  | some s => if s == "" then d else s
  | none => d

/-- Whether `pat` is a prefix of `s` (character lists). -/
def listStartsWith : List Char → List Char → Bool
  | [], _ => true
  | _ :: _, [] => false
  | p :: ps, c :: cs => p == c && listStartsWith ps cs

/-- Whether `needle` occurs as a contiguous substring of `hay`. -/
def listHasSub (needle : List Char) : List Char → Bool
  | [] => needle.isEmpty
  | c :: cs => listStartsWith needle (c :: cs) || listHasSub needle cs

/-- JS `s.includes(sub)` (substring test). -/
def strIncludes (s sub : String) : Bool :=
  listHasSub sub.toList s.toList

/-- JS `s.charAt(0).toUpperCase() + s.slice(1)`. -/
def capitalizeFirst (s : String) : String :=
  match s.toList with
  | [] => ""
  | c :: rest => String.mk (c.toUpper :: rest)

/-- JS `s.toLowerCase()` (per-character ASCII lowering), defined by
structural recursion so that proofs can evaluate it. -/
def jsToLower (s : String) : String :=
  String.mk (s.toList.map Char.toLower)

/-- JS `s.trim()`: strip whitespace from both ends. -/
def jsTrim (s : String) : String :=
  String.mk (((s.toList.dropWhile Char.isWhitespace).reverse.dropWhile
    Char.isWhitespace).reverse)

/-- Split a character list on a separator character. -/
def splitOnCharList (sep : Char) : List Char → List (List Char)
  | [] => [[]]
  | c :: rest =>
    let r := splitOnCharList sep rest
    if c == sep then [] :: r
    else
      match r with
      | h :: t => (c :: h) :: t
      | [] => [[c]]

/-- JS `s.split(",")`. -/
def jsSplitComma (s : String) : List String :=
  (splitOnCharList ',' s.toList).map String.mk

/-- JS `s.replace(pat, "")` for the first occurrence of `pat` (used only to
strip the `n8n-nodes-base.` prefix from type names). -/
def replaceFirstOcc (s pat : String) : String :=
  let rec go : List Char → List Char
    | [] => []
    | c :: cs =>
      if listStartsWith pat.toList (c :: cs) then
        (c :: cs).drop pat.toList.length
      else
        c :: go cs
  String.mk (go s.toList)

/-- One serialized connection record `{node, type, index}`. -/
structure N8nConnection where
  node : String
  type : String
  index : Nat
deriving DecidableEq, Inhabited

/-- The content of `connections.main`: source node name mapped to the list
stored under its inner `main` key, in insertion order. -/
abbrev ConnMap := List (String × List N8nConnection)

/-- `connections.main[src].main.push(c)`, creating the entry when absent. -/
def pushConn : ConnMap → String → N8nConnection → ConnMap
  | [], src, c => [(src, [c])]
  | e :: rest, src, c =>
    if e.1 == src then (e.1, e.2 ++ [c]) :: rest else e :: pushConn rest src c

/-- The target list recorded for source node `src` ( `[]` when absent). -/
def connTargets (m : ConnMap) (src : String) : List N8nConnection :=
  (((m.find? (fun e => e.1 == src)).map (fun e => e.2))).getD []

/-- Total number of target entries in a connections map. -/
def totalTargets (m : ConnMap) : Nat :=
  (m.map (fun e => e.2.length)).sum

/-- A workflow node record. `credentials`/`continueOnFail` are absent
(`none`/`false`) on every node this repository builds; they are read only by
the rule-based validator on fetched workflows. -/
structure N8nNode where
  id : String
  name : String
  type : String
  typeVersion : Nat
  position : Int × Int
  parameters : List (String × JValue)
  credentials : Option (List (String × String)) := none
  continueOnFail : Bool := false

/-- A workflow document. `connections` holds the content of
`connections.main`; `settings` is an opaque bag. -/
structure N8nWorkflow where
  name : String
  description : Option String := none
  nodes : List N8nNode
  connections : ConnMap
  active : Bool := false
  settings : List (String × JValue) := []
  tags : Option (List String) := none

/-! ## Node catalog (`nodeDefinitions.ts`) -/

/-- A catalog entry.  The display-only `parameterDescriptions` table (never
read by any code) is not carried over. -/
structure NodeDefinition where
  type : String
  typeVersion : Nat
  description : String
  defaultName : String
  defaultParameters : List (String × JValue)
  category : String
  inputs : List String
  outputs : List String
  requiredParameters : List String := []

/-- `createNode`: instantiate a node from its catalog definition; resolved
parameters are the JS spread `{...defaults, ...custom}` and the display name
is `customName || definition.defaultName`. -/
def createNode (definition : NodeDefinition) (id : String) (position : Int × Int)
    (customParameters : List (String × JValue)) (customName : Option String) : N8nNode :=
  { id := id
    name := jsOrStr customName definition.defaultName
    type := definition.type
    typeVersion := definition.typeVersion
    position := position
    parameters := spreadMerge definition.defaultParameters customParameters }

/-- `createNodeId`: strip the `n8n-nodes-base.` prefix and append `_index`. -/
def createNodeId (type : String) (index : Nat) : String :=
  replaceFirstOcc type "n8n-nodes-base." ++ "_" ++ toString index

def startDef : NodeDefinition :=
  { type := "n8n-nodes-base.start", typeVersion := 1
    description := "Start node that triggers a workflow execution"
    defaultName := "Start", defaultParameters := []
    category := "trigger", inputs := [], outputs := ["main"] }

def manualTriggerDef : NodeDefinition :=
  { type := "n8n-nodes-base.manualTrigger", typeVersion := 1
    description := "Trigger for manually starting a workflow"
    defaultName := "Manual Trigger", defaultParameters := []
    category := "trigger", inputs := [], outputs := ["main"] }

def scheduleTriggerDef : NodeDefinition :=
  { type := "n8n-nodes-base.scheduleTrigger", typeVersion := 1
    description := "Trigger workflows at specific times or intervals"
    defaultName := "Schedule Trigger"
    defaultParameters :=
      [("interval", .arr [.obj [("field", .str "cronExpression"),
                                ("expression", .str "0 0 * * *")]])]
    category := "trigger", inputs := [], outputs := ["main"]
    requiredParameters := ["interval"] }

def httpRequestDef : NodeDefinition :=
  { type := "n8n-nodes-base.httpRequest", typeVersion := 1
    description := "Make HTTP requests to any API endpoint"
    defaultName := "HTTP Request"
    defaultParameters :=
      [("url", .str ""), ("method", .str "GET"),
       ("authentication", .str "none"), ("options", .obj [])]
    category := "action", inputs := ["main"], outputs := ["main"]
    requiredParameters := ["url", "method"] }

def setDef : NodeDefinition :=
  { type := "n8n-nodes-base.set", typeVersion := 1
    description := "Set/add values to items and create new ones"
    defaultName := "Set"
    defaultParameters :=
      [("values", .obj [("string", .arr [])]), ("options", .obj [])]
    category := "data", inputs := ["main"], outputs := ["main"] }

def functionDef : NodeDefinition :=
  { type := "n8n-nodes-base.function", typeVersion := 1
    description := "Run custom JavaScript code"
    defaultName := "Function"
    defaultParameters := [("functionCode", .str "return items;")]
    category := "helper", inputs := ["main"], outputs := ["main"]
    requiredParameters := ["functionCode"] }

def ifDef : NodeDefinition :=
  { type := "n8n-nodes-base.if", typeVersion := 1
    description := "Split a workflow conditionally"
    defaultName := "IF"
    defaultParameters :=
      [("conditions", .obj [("string", .arr [.obj [("value1", .str ""),
        ("operation", .str "equal"), ("value2", .str "")]])])]
    category := "flow", inputs := ["main"], outputs := ["main", "main"]
    requiredParameters := ["conditions"] }

def mergeDef : NodeDefinition :=
  { type := "n8n-nodes-base.merge", typeVersion := 2
    description := "Merge data of multiple streams"
    defaultName := "Merge"
    defaultParameters := [("mode", .str "append")]
    category := "flow", inputs := ["main", "main"], outputs := ["main"] }

def emailDef : NodeDefinition :=
  { type := "n8n-nodes-base.email", typeVersion := 1
    description := "Send emails"
    defaultName := "Email"
    defaultParameters :=
      [("fromEmail", .str ""), ("toEmail", .str ""), ("subject", .str ""),
       ("text", .str ""), ("options", .obj [])]
    category := "communication", inputs := ["main"], outputs := ["main"]
    requiredParameters := ["fromEmail", "toEmail", "subject"] }

def googleSheetsDef : NodeDefinition :=
  { type := "n8n-nodes-base.googleSheets", typeVersion := 1
    description := "Read/write data to Google Sheets"
    defaultName := "Google Sheets"
    defaultParameters :=
      [("operation", .str "read"), ("sheetId", .str ""), ("range", .str ""),
       ("options", .obj [])]
    category := "services", inputs := ["main"], outputs := ["main"]
    requiredParameters := ["operation", "sheetId"] }

def twitterDef : NodeDefinition :=
  { type := "n8n-nodes-base.twitter", typeVersion := 1
    description := "Post tweets, search tweets, etc."
    defaultName := "Twitter"
    defaultParameters :=
      [("operation", .str "search"), ("searchText", .str ""), ("options", .obj [])]
    category := "services", inputs := ["main"], outputs := ["main"]
    requiredParameters := ["operation"] }

def redditDef : NodeDefinition :=
  { type := "n8n-nodes-base.reddit", typeVersion := 1
    description := "Get data from Reddit"
    defaultName := "Reddit"
    defaultParameters :=
      [("operation", .str "search"), ("subreddit", .str ""), ("options", .obj [])]
    category := "services", inputs := ["main"], outputs := ["main"]
    requiredParameters := ["operation", "subreddit"] }

def slackDef : NodeDefinition :=
  { type := "n8n-nodes-base.slack", typeVersion := 1
    description := "Send messages to Slack"
    defaultName := "Slack"
    defaultParameters :=
      [("operation", .str "sendMessage"), ("channel", .str ""), ("text", .str ""),
       ("options", .obj [])]
    category := "communication", inputs := ["main"], outputs := ["main"]
    requiredParameters := ["operation", "channel", "text"] }

/-- The entries of the `nodeDefinitions` object literal, in source order. -/
def nodeDefList : List (String × NodeDefinition) :=
  [("n8n-nodes-base.start", startDef),
   ("n8n-nodes-base.manualTrigger", manualTriggerDef),
   ("n8n-nodes-base.scheduleTrigger", scheduleTriggerDef),
   ("n8n-nodes-base.httpRequest", httpRequestDef),
   ("n8n-nodes-base.set", setDef),
   ("n8n-nodes-base.function", functionDef),
   ("n8n-nodes-base.if", ifDef),
   ("n8n-nodes-base.merge", mergeDef),
   ("n8n-nodes-base.email", emailDef),
   ("n8n-nodes-base.googleSheets", googleSheetsDef),
   ("n8n-nodes-base.twitter", twitterDef),
   ("n8n-nodes-base.reddit", redditDef),
   ("n8n-nodes-base.slack", slackDef)]

/-- The static catalog `nodeDefinitions` keyed by node-type identifier. -/
def nodeDefinitions (t : String) : Option NodeDefinition :=
  lookupJ nodeDefList t

/-- `nodeDefinitions[t]?.outputs?.length` is truthy: the catalog knows the
type and declares at least one output port. -/
def hasOutputs (t : String) : Bool :=
  match nodeDefinitions t with
  | some d => !d.outputs.isEmpty
  | none => false

namespace Generator

/-- The body of `createConnections`' `for` loop over `nodes` (workflow
generator version).  The current node is the list head; the loop stops when
fewer than two nodes remain.  A node whose catalog entry is missing or
declares no outputs is not wired forward.  An `if` node with at least two
remaining successors is wired to both of them — the first with `index` 0 and
the second with `index` 1 — and the loop then skips the next node (`i++`);
with exactly one successor it is wired like a regular node. -/
def connGo (m : ConnMap) : List N8nNode → ConnMap
  | [] => m
  | [_] => m
  | [x, y] =>
    if !hasOutputs x.type then m
    else pushConn m x.name ⟨y.name, "main", 0⟩
  | x :: y :: z :: rest =>
    if !hasOutputs x.type then connGo m (y :: z :: rest)
    else if x.type == "n8n-nodes-base.if" then
      connGo (pushConn (pushConn m x.name ⟨y.name, "main", 0⟩)
              x.name ⟨z.name, "main", 1⟩) (z :: rest)
    else
      connGo (pushConn m x.name ⟨y.name, "main", 0⟩) (y :: z :: rest)

/-- `createConnections(nodes)` of the workflow generator: sequential wiring
with the `if`-node special case, starting from the empty map. -/
def createConnections (nodes : List N8nNode) : ConnMap :=
  connGo [] nodes

end Generator

/-! ## Pattern matchers used by the generator

Hand-rolled scanners for the three regular expressions in the generator:
`/api:?\s+([^\s,]+)/i`, `/keywords?:?\s+([^.]+)/i` and
`/workflow (?:to|that|which) ([\w\s]+)/i`.  Each returns the first (leftmost)
capture, like `String.prototype.match`.  `\s` is modeled by
`Char.isWhitespace` and `\w` by ASCII letters, digits and underscore. -/

/-- Case-insensitive literal match at the start of `s`. -/
def ciStartsWith : List Char → List Char → Bool
  | [], _ => true
  | _ :: _, [] => false
  | p :: ps, c :: cs => p.toLower == c.toLower && ciStartsWith ps cs

/-- JS `\w`: ASCII word character. -/
def isWordChar (c : Char) : Bool :=
  c.isAlpha || c.isDigit || c == '_'

/-- Try `/api:?\s+([^\s,]+)/i` anchored at the current position. -/
def apiCaptureAt (s : List Char) : Option String :=
  if ciStartsWith "api".toList s then
    let r0 := s.drop 3
    let r1 := match r0 with
      | ':' :: t => t
      | _ => r0
    let ws := r1.takeWhile Char.isWhitespace
    if ws.isEmpty then none
    else
      let r2 := r1.drop ws.length
      let cap := r2.takeWhile (fun c => !c.isWhitespace && c != ',')
      if cap.isEmpty then none else some (String.mk cap)
  else none

/-- Leftmost match of `/api:?\s+([^\s,]+)/i`, returning the capture. -/
def apiScan : List Char → Option String
  | [] => none
  | c :: cs =>
    match apiCaptureAt (c :: cs) with
    | some cap => some cap
    | none => apiScan cs

/-- The `:?\s+([^.]+)` tail of the keywords pattern. -/
def kwTail (r : List Char) : Option String :=
  let r1 := match r with
    | ':' :: t => t
    | _ => r
  let ws := r1.takeWhile Char.isWhitespace
  if ws.isEmpty then none
  else
    let r2 := r1.drop ws.length
    let cap := r2.takeWhile (fun c => c != '.')
    if cap.isEmpty then none else some (String.mk cap)

/-- Try `/keywords?:?\s+([^.]+)/` anchored at the current position (the
generator applies it to the lower-cased description).  The optional `s` is
greedy with fallback, as in the regex engine. -/
def kwCaptureAt (s : List Char) : Option String :=
  if listStartsWith "keyword".toList s then
    let r := s.drop 7
    match r with
    | 's' :: t =>
      (match kwTail t with
       | some cap => some cap
       | none => kwTail r)
    | _ => kwTail r
  else none

/-- Leftmost match of the keywords pattern, returning the capture. -/
def kwScan : List Char → Option String
  | [] => none
  | c :: cs =>
    match kwCaptureAt (c :: cs) with
    | some cap => some cap
    | none => kwScan cs

/-- The  ` ([\w\s]+)` tail after a matched alternative. -/
def nameAltTail (r : List Char) : Option String :=
  match r with
  | ' ' :: r2 =>
    let cap := r2.takeWhile (fun c => isWordChar c || c.isWhitespace)
    if cap.isEmpty then none else some (String.mk cap)
  | _ => none

/-- Try `/workflow (?:to|that|which) ([\w\s]+)/i` anchored at the current
position, with the alternatives tried in source order. -/
def nameCaptureAt (s : List Char) : Option String :=
  if ciStartsWith "workflow ".toList s then
    let r := s.drop 9
    match (if ciStartsWith "to".toList r then nameAltTail (r.drop 2) else none) with
    | some cap => some cap
    | none =>
      match (if ciStartsWith "that".toList r then nameAltTail (r.drop 4) else none) with
      | some cap => some cap
      | none => if ciStartsWith "which".toList r then nameAltTail (r.drop 5) else none
  else none

/-- Leftmost match of the workflow-name pattern, returning the capture. -/
def nameScan : List Char → Option String
  | [] => none
  | c :: cs =>
    match nameCaptureAt (c :: cs) with
    | some cap => some cap
    | none => nameScan cs

/-! ## Workflow generator (`workflowGenerator.ts`) -/

namespace Generator

/-- Requirements extracted from the natural-language description. -/
structure WorkflowRequirements where
  name : String
  description : String
  operations : List String
  dataTypes : List String
  conditionalLogic : Bool
  scheduling : Option String := none
  templateId : Option String := none
  complexity : String

/-- The scheduling keyword refinement applied when the `schedule` operation
is detected. -/
def schedulingFromDesc (lower : String) : String :=
  if strIncludes lower "every hour" then "hourly"
  else if strIncludes lower "every day" then "daily"
  else if strIncludes lower "weekly" then "weekly"
  else if strIncludes lower "monthly" then "monthly"
  else "daily"

/-- The `operationKeywords` table. -/
def operationKeywords : List (List String × String) :=
  [(["fetch", "get", "retrieve", "download", "api"], "fetch"),
   (["send", "email", "message", "notification"], "notify"),
   (["filter", "process", "transform", "clean"], "process"),
   (["schedule", "recurring", "every day", "weekly", "monthly"], "schedule"),
   (["if", "condition", "when", "case"], "condition"),
   (["store", "save", "database", "google sheets"], "store")]

/-- The `dataTypeKeywords` table. -/
def dataTypeKeywords : List (List String × String) :=
  [(["json", "api response"], "json"),
   (["csv", "excel", "spreadsheet"], "tabular"),
   (["text", "string"], "text"),
   (["image", "photo", "picture"], "image"),
   (["email"], "email")]

/-- One step of the `operationKeywords.forEach` loop. -/
def applyOpKeyword (lower : String) (req : WorkflowRequirements)
    (entry : List String × String) : WorkflowRequirements :=
  if entry.1.any (fun k => strIncludes lower k) then
    let req :=
      { req with operations :=
          if req.operations.contains entry.2 then req.operations
          else req.operations ++ [entry.2] }
    let req :=
      if entry.2 == "schedule" then
        { req with scheduling := some (schedulingFromDesc lower) }
      else req
    if entry.2 == "condition" then { req with conditionalLogic := true } else req
  else req

/-- One step of the `dataTypeKeywords.forEach` loop. -/
def applyDataTypeKeyword (lower : String) (req : WorkflowRequirements)
    (entry : List String × String) : WorkflowRequirements :=
  if entry.1.any (fun k => strIncludes lower k) then
    { req with dataTypes :=
        if req.dataTypes.contains entry.2 then req.dataTypes
        else req.dataTypes ++ [entry.2] }
  else req

/-- `parseWorkflowRequirements`: extract name, operations, data types,
scheduling, template id and complexity from the description. -/
def parseWorkflowRequirements (description : String) : WorkflowRequirements :=
  let lower := jsToLower description
  let base : WorkflowRequirements :=
    { name := "Generated Workflow", description := description,
      operations := [], dataTypes := [], conditionalLogic := false,
      complexity := "simple" }
  let base :=
    match nameScan description.toList with
    | some cap => { base with name := capitalizeFirst (jsTrim cap) }
    | none => base
  let afterOps := operationKeywords.foldl (applyOpKeyword lower) base
  let afterData := dataTypeKeywords.foldl (applyDataTypeKeyword lower) afterOps
  let withTemplate :=
    if strIncludes lower "api" && afterData.operations.contains "fetch" then
      { afterData with templateId := some "api-request" }
    else if strIncludes lower "social media" || strIncludes lower "twitter" ||
        strIncludes lower "reddit" then
      { afterData with templateId := some "social-media-monitoring" }
    else if afterData.operations.contains "notify" then
      { afterData with templateId := some "notification" }
    else if afterData.operations.contains "process" ||
        (afterData.operations.contains "fetch" && afterData.operations.contains "store") then
      { afterData with templateId := some "data-processing" }
    else afterData
  if withTemplate.operations.length ≥ 4 ||
      (withTemplate.conditionalLogic && withTemplate.operations.length ≥ 3) then
    { withTemplate with complexity := "complex" }
  else if withTemplate.operations.length ≥ 2 || withTemplate.conditionalLogic then
    { withTemplate with complexity := "medium" }
  else withTemplate

/-- `determineRequiredNodes`: trigger node first, then operation-implied
nodes, then explicitly required nodes (deduplicated). -/
def determineRequiredNodes (req : WorkflowRequirements)
    (explicitNodes : List String) : List String :=
  let nodes :=
    if req.operations.contains "schedule" then ["n8n-nodes-base.scheduleTrigger"]
    else ["n8n-nodes-base.start"]
  let nodes :=
    if req.operations.contains "fetch" then nodes ++ ["n8n-nodes-base.httpRequest"]
    else nodes
  let nodes :=
    if req.operations.contains "process" then
      nodes ++ ["n8n-nodes-base.function", "n8n-nodes-base.set"]
    else nodes
  let nodes :=
    if req.operations.contains "notify" then
      let nodes :=
        if strIncludes (jsToLower req.description) "email" then
          nodes ++ ["n8n-nodes-base.email"]
        else nodes
      if strIncludes (jsToLower req.description) "slack" then
        nodes ++ ["n8n-nodes-base.slack"]
      else nodes
    else nodes
  let nodes := if req.conditionalLogic then nodes ++ ["n8n-nodes-base.if"] else nodes
  let nodes :=
    if req.operations.contains "store" then
      if strIncludes (jsToLower req.description) "google sheet" then
        nodes ++ ["n8n-nodes-base.googleSheets"]
      else nodes
    else nodes
  explicitNodes.foldl (fun acc n => if acc.contains n then acc else acc ++ [n]) nodes

end Generator

/-! ## Workflow templates (`templates.ts`)

`Record<string, any>` template parameters are typed by the keys the four
templates actually destructure; a missing key is `none` (JS `undefined`), so
destructuring defaults apply exactly when the field is `none` and `x || d`
fallbacks additionally replace empty strings. -/

/-- `sourceConfig` of the data-processing template. -/
structure SourceConfig where
  url : Option String := none
  method : Option String := none
  sheetId : Option String := none
  range : Option String := none

/-- `triggerConfig` of the notification template. -/
structure TriggerConfig where
  schedule : Option String := none

/-- `notificationConfig.email`.  The JS `from` and `to` properties are
called `fromAddr`/`toAddr` here because `from`/`to` are reserved in Lean. -/
structure EmailConfig where
  fromAddr : Option String := none
  toAddr : Option String := none
  subject : Option String := none
  body : Option String := none

/-- `notificationConfig.slack`. -/
structure SlackConfig where
  channel : Option String := none

/-- `notificationConfig` of the notification template. -/
structure NotificationConfig where
  email : Option EmailConfig := none
  slack : Option SlackConfig := none

/-- The template parameter bag (union of the keys the templates read). -/
structure TemplateParameters where
  apiUrl : Option String := none
  method : Option String := none
  platforms : Option (List String) := none
  keywords : Option (List String) := none
  schedule : Option String := none
  sourceType : Option String := none
  sourceConfig : Option SourceConfig := none
  transformations : Option (List String) := none
  trigger : Option String := none
  triggerConfig : Option TriggerConfig := none
  notificationChannels : Option (List String) := none
  notificationConfig : Option NotificationConfig := none

/-- `WorkflowTemplateParams`. -/
structure WorkflowTemplateParams where
  name : String
  description : Option String := none
  parameters : TemplateParameters := {}

/-- `WorkflowTemplate`.  `generateWorkflow` returns `Except` because the
notification template dereferences an undefined `triggerNode` for an
unrecognized `trigger` value (a thrown `TypeError` in JS). -/
structure WorkflowTemplate where
  id : String
  name : String
  description : String
  category : List String
  generateWorkflow : WorkflowTemplateParams → Except String N8nWorkflow

namespace Templates

/-- The templates-file helper `createConnections(source, target)`; the
source name is ignored by the function body. -/
def createConnections (sourceNodeName targetNodeName : String) : N8nConnection :=
  { node := targetNodeName, type := "main", index := 0 }

/-- Minimal `JSON.stringify` escaping for one character. -/
def jsonEscapeChar (c : Char) : String :=
  if c == '"' then "\\\""
  else if c == '\\' then "\\\\"
  else if c == '\n' then "\\n"
  else if c == '\r' then "\\r"
  else if c == '\t' then "\\t"
  else String.mk [c]

/-- `JSON.stringify` of a string array. -/
def jsonStringifyList (l : List String) : String :=
  "[" ++ String.intercalate ","
    (l.map (fun s => "\"" ++ String.join (s.toList.map jsonEscapeChar) ++ "\"")) ++ "]"

/-- The function-node code of the social-media template, with the keyword
list spliced in by `JSON.stringify`. -/
def smFunctionCode (keywords : List String) : String :=
  "\n// Deduplicate and format the social media data\nconst results = [];\nconst seenIds = new Set();\n\nfor (const item of items) \x7b\n  let id, content, source, url, date;\n  \n  if (item.json.id_str) \x7b\n    // Twitter data\n    id = item.json.id_str;\n    content = item.json.text || item.json.full_text;\n    source = 'Twitter';\n    url = `https://twitter.com/user/status/$\x7bid\x7d`;\n    date = item.json.created_at;\n  \x7d else if (item.json.id) \x7b\n    // Reddit data\n    id = item.json.id;\n    content = item.json.title || item.json.selftext;\n    source = 'Reddit';\n    url = item.json.url;\n    date = new Date(item.json.created_utc * 1000).toISOString();\n  \x7d\n  \n  if (id && !seenIds.has(id)) \x7b\n    seenIds.add(id);\n    results.push(\x7b\n      id,\n      content,\n      source,\n      url,\n      date,\n      keywords: "
  ++ jsonStringifyList keywords ++
  ".filter(keyword => \n        content.toLowerCase().includes(keyword.toLowerCase())\n      )\n    \x7d);\n  \x7d\n\x7d\n\nreturn results.map(r => (\x7b json: r \x7d));\n"

/-- `apiRequestTemplate`. -/
def apiRequestTemplate : WorkflowTemplate :=
  { id := "api-request", name := "API Request Workflow"
    description := "Fetch data from an API and process the results"
    category := ["api", "data"]
    generateWorkflow := fun params =>
      let parameters := params.parameters
      let apiUrl := parameters.apiUrl.getD "https://api.example.com/data"
      let method := parameters.method.getD "GET"
      let startNode := createNode startDef (createNodeId "start" 1) (250, 300) [] none
      let httpNode := createNode httpRequestDef (createNodeId "httpRequest" 1) (450, 300)
        [("url", .str apiUrl), ("method", .str method)] (some "API Request")
      let setNode := createNode setDef (createNodeId "set" 1) (650, 300)
        [("values", .obj [("string", .arr [.obj [("name", .str "processedData"),
          ("value", .str "=\x7b\x7b $json \x7d\x7d")]])])]
        (some "Process Data")
      let connections : ConnMap :=
        [(startNode.name, [createConnections startNode.name httpNode.name]),
         (httpNode.name, [createConnections httpNode.name setNode.name])]
      .ok { name := params.name
            description := some (jsOrStr params.description
              "Workflow to fetch and process API data")
            nodes := [startNode, httpNode, setNode]
            connections := connections
            active := false
            settings := [("saveExecutionProgress", .bool true),
                         ("saveManualExecutions", .bool true)] } }

/-- The `platforms.forEach` loop of the social-media template: node list,
connection map, last node name and position threaded through; platforms
other than twitter/reddit produce no node. -/
def smPlatformLoop (keywords : List String) :
    List String → Nat → ConnMap → String → Int × Int →
    List N8nNode × ConnMap × String × (Int × Int)
  | [], _, conns, lastName, pos => ([], conns, lastName, pos)
  | p :: rest, index, conns, lastName, pos =>
    let platformNode : Option N8nNode :=
      if jsToLower p == "twitter" then
        some (createNode twitterDef (createNodeId "twitter" (index + 1)) pos
          [("operation", .str "search"),
           ("searchText", .str (String.intercalate " OR " keywords)),
           ("options", .obj [("limit", .num 10), ("includeReplies", .bool false)])]
          (some "Twitter Search"))
      else if jsToLower p == "reddit" then
        some (createNode redditDef (createNodeId "reddit" (index + 1)) pos
          [("operation", .str "search"), ("subreddit", .str "all"),
           ("options", .obj [("limit", .num 10),
             ("query", .str (String.intercalate " OR " keywords))])]
          (some "Reddit Search"))
      else none
    match platformNode with
    | some nd =>
      let conns1 := pushConn conns lastName (createConnections lastName nd.name)
      match smPlatformLoop keywords rest (index + 1) conns1 nd.name (pos.1 + 200, pos.2) with
      | (ns, cs, ln, ps) => (nd :: ns, cs, ln, ps)
    | none => smPlatformLoop keywords rest (index + 1) conns lastName pos

/-- `socialMediaTemplate`. -/
def socialMediaTemplate : WorkflowTemplate :=
  { id := "social-media-monitoring", name := "Social Media Monitoring"
    description := "Monitor social media platforms for keywords or topics"
    category := ["social-media", "monitoring"]
    generateWorkflow := fun params =>
      let parameters := params.parameters
      let platforms := parameters.platforms.getD ["twitter"]
      let keywords := parameters.keywords.getD ["n8n", "workflow automation"]
      let schedule := parameters.schedule.getD "0 */2 * * *"
      let scheduleNode := createNode scheduleTriggerDef
        (createNodeId "scheduleTrigger" 1) (250, 300)
        [("interval", .arr [.obj [("field", .str "cronExpression"),
          ("expression", .str schedule)]])] none
      match smPlatformLoop keywords platforms 0 [] scheduleNode.name (450, 300) with
      | (platformNodes, conns, lastName, pos) =>
        let functionNode := createNode functionDef (createNodeId "function" 1) pos
          [("functionCode", .str (smFunctionCode keywords))] (some "Process Social Data")
        let conns1 := pushConn conns lastName
          (createConnections lastName functionNode.name)
        .ok { name := params.name
              description := some (jsOrStr params.description
                "Workflow to monitor social media for keywords")
              nodes := scheduleNode :: platformNodes ++ [functionNode]
              connections := conns1
              active := false
              settings := [("saveExecutionProgress", .bool true),
                           ("saveManualExecutions", .bool true)] } }

/-- The filter-transformation function code of the data-processing template. -/
def fcFilter : String :=
  "\n// Filter data example\nreturn items.filter(item => \x7b\n  // Add your filtering logic here\n  // Example: only keep items with a specific property\n  return item.json.status === 'active';\n\x7d);"

/-- The merge-transformation function code of the data-processing template. -/
def fcMerge : String :=
  "\n// Merge or combine data example\n// For a real merge, you'd need multiple inputs to the node\nreturn items.map(item => \x7b\n  // Transform the data as needed\n  return \x7b\n    json: \x7b\n      ...item.json,\n      merged: true,\n      timestamp: new Date().toISOString()\n    \x7d\n  \x7d;\n\x7d);"

/-- Transformation-node construction of the data-processing template. -/
def dpTransformNode (index : Nat) (pos : Int × Int) (transformation : String) :
    Option N8nNode :=
  if transformation == "filter" then
    some (createNode functionDef (createNodeId "function" (index + 1)) pos
      [("functionCode", .str fcFilter)] (some "Filter Data"))
  else if transformation == "format" then
    some (createNode setDef (createNodeId "set" (index + 1)) pos
      [("values", .obj [("string", .arr [.obj [("name", .str "formattedData"),
        ("value", .str "=\x7b\x7b $json \x7d\x7d")]])])] (some "Format Data"))
  else if transformation == "merge" then
    some (createNode functionDef (createNodeId "function" (index + 1)) pos
      [("functionCode", .str fcMerge)] (some "Transform Data"))
  else none

/-- The `transformations.forEach` loop of the data-processing template. -/
def dpLoop :
    List String → Nat → ConnMap → String → Int × Int →
    List N8nNode × ConnMap × String × (Int × Int)
  | [], _, conns, lastName, pos => ([], conns, lastName, pos)
  | t :: rest, index, conns, lastName, pos =>
    match dpTransformNode index pos t with
    | some nd =>
      let conns1 := pushConn conns lastName (createConnections lastName nd.name)
      match dpLoop rest (index + 1) conns1 nd.name (pos.1 + 200, pos.2) with
      | (ns, cs, ln, ps) => (nd :: ns, cs, ln, ps)
    | none => dpLoop rest (index + 1) conns lastName pos

/-- `dataProcessingTemplate`. -/
def dataProcessingTemplate : WorkflowTemplate :=
  { id := "data-processing", name := "Data Processing Pipeline"
    description := "Multi-step data processing workflow with transformations"
    category := ["data", "processing"]
    generateWorkflow := fun params =>
      let parameters := params.parameters
      let sourceType := parameters.sourceType.getD "http"
      let sourceConfig := parameters.sourceConfig.getD
        { url := some "https://api.example.com/data" }
      let transformations := parameters.transformations.getD ["filter", "format"]
      let startNode := createNode startDef (createNodeId "start" 1) (250, 300) [] none
      let sourceNode : Option N8nNode :=
        if sourceType == "http" then
          some (createNode httpRequestDef (createNodeId "httpRequest" 1) (450, 300)
            [("url", .str (jsOrStr sourceConfig.url "https://api.example.com/data")),
             ("method", .str (jsOrStr sourceConfig.method "GET"))] (some "Data Source"))
        else if sourceType == "googleSheets" then
          some (createNode googleSheetsDef (createNodeId "googleSheets" 1) (450, 300)
            [("operation", .str "read"),
             ("sheetId", .str (jsOrStr sourceConfig.sheetId "")),
             ("range", .str (jsOrStr sourceConfig.range "A:Z"))]
            (some "Google Sheets Source"))
        else none
      let settings : List (String × JValue) :=
        [("saveExecutionProgress", .bool true), ("saveManualExecutions", .bool true)]
      let description := some (jsOrStr params.description
        "Data processing workflow with multiple transformations")
      match sourceNode with
      | some sn =>
        let conns := pushConn [] startNode.name
          (createConnections startNode.name sn.name)
        match dpLoop transformations 0 conns sn.name (650, 300) with
        | (tns, cs, _, _) =>
          .ok { name := params.name, description := description
                nodes := startNode :: sn :: tns, connections := cs
                active := false, settings := settings }
      | none =>
        match dpLoop transformations 0 [] startNode.name (450, 300) with
        | (tns, cs, _, _) =>
          .ok { name := params.name, description := description
                nodes := startNode :: tns, connections := cs
                active := false, settings := settings } }

/-- The `notificationChannels.forEach` loop of the notification template.
The source node name is *not* advanced between channels, so all channel
nodes fan out from the same predecessor. -/
def ntChannelLoop (notificationConfig : NotificationConfig) :
    List String → Nat → ConnMap → String → Int × Int →
    List N8nNode × ConnMap
  | [], _, conns, _, _ => ([], conns)
  | ch :: rest, index, conns, lastName, pos =>
    let channelNode : Option N8nNode :=
      if ch == "email" then
        some (createNode emailDef (createNodeId "email" (index + 1))
          (pos.1, pos.2 + (index : Int) * 150)
          [("fromEmail", .str (jsOrStr
             (notificationConfig.email.bind (fun e => e.fromAddr))
             "notifications@example.com")),
           ("toEmail", .str (jsOrStr
             (notificationConfig.email.bind (fun e => e.toAddr)) "user@example.com")),
           ("subject", .str "=\x7b\x7b $json.notificationTitle \x7d\x7d"),
           ("text", .str "=\x7b\x7b $json.notificationBody \x7d\x7d")]
          (some "Send Email"))
      else if ch == "slack" then
        some (createNode slackDef (createNodeId "slack" (index + 1))
          (pos.1, pos.2 + (index : Int) * 150)
          [("operation", .str "sendMessage"),
           ("channel", .str (jsOrStr
             (notificationConfig.slack.bind (fun s => s.channel)) "general")),
           ("text", .str "=\x7b\x7b $json.notificationTitle + \"\\n\\n\" + $json.notificationBody \x7d\x7d")]
          (some "Send Slack Message"))
      else none
    match channelNode with
    | some nd =>
      let conns1 := pushConn conns lastName (createConnections lastName nd.name)
      match ntChannelLoop notificationConfig rest (index + 1) conns1 lastName pos with
      | (ns, cs) => (nd :: ns, cs)
    | none => ntChannelLoop notificationConfig rest (index + 1) conns lastName pos

/-- `notificationTemplate`.  For a `trigger` value other than
`schedule`/`manual` the JS code dereferences `triggerNode.name` on
`undefined`; that thrown `TypeError` is the `Except.error` case. -/
def notificationTemplate : WorkflowTemplate :=
  { id := "notification", name := "Notification Workflow"
    description := "Send notifications when specific events occur"
    category := ["notification", "alerts"]
    generateWorkflow := fun params =>
      let parameters := params.parameters
      let trigger := parameters.trigger.getD "schedule"
      let triggerConfig := parameters.triggerConfig.getD { schedule := some "0 9 * * *" }
      let notificationChannels := parameters.notificationChannels.getD ["email"]
      let notificationConfig := parameters.notificationConfig.getD
        { email := some { toAddr := some "user@example.com", subject := some "Notification" } }
      let triggerNode : Option N8nNode :=
        if trigger == "schedule" then
          some (createNode scheduleTriggerDef (createNodeId "scheduleTrigger" 1)
            (250, 300)
            [("interval", .arr [.obj [("field", .str "cronExpression"),
              ("expression", .str (jsOrStr triggerConfig.schedule "0 9 * * *"))]])]
            (some "Schedule Trigger"))
        else if trigger == "manual" then
          some (createNode manualTriggerDef (createNodeId "manualTrigger" 1)
            (250, 300) [] (some "Manual Trigger"))
        else none
      match triggerNode with
      | none => .error "Cannot read properties of undefined (reading 'name')"
      | some tn =>
        let setNode := createNode setDef (createNodeId "set" 1) (450, 300)
          [("values", .obj [("string", .arr
            [.obj [("name", .str "notificationTitle"),
                   ("value", .str (jsOrStr
                     (notificationConfig.email.bind (fun e => e.subject))
                     "Notification"))],
             .obj [("name", .str "notificationBody"),
                   ("value", .str (jsOrStr
                     (notificationConfig.email.bind (fun e => e.body))
                     "This is an automated notification from n8n."))],
             .obj [("name", .str "timestamp"),
                   ("value", .str "=\x7b\x7b $now \x7d\x7d")]])])]
          (some "Prepare Notification")
        let conns := pushConn [] tn.name (createConnections tn.name setNode.name)
        match ntChannelLoop notificationConfig notificationChannels 0 conns
            setNode.name (650, 300) with
        | (chNodes, cs) =>
          .ok { name := params.name
                description := some (jsOrStr params.description
                  "Workflow to send notifications")
                nodes := tn :: setNode :: chNodes
                connections := cs
                active := false
                settings := [("saveExecutionProgress", .bool true),
                             ("saveManualExecutions", .bool true)] } }

/-- The `workflowTemplates` catalog. -/
def workflowTemplates (tid : String) : Option WorkflowTemplate :=
  if tid == "api-request" then some apiRequestTemplate
  else if tid == "social-media-monitoring" then some socialMediaTemplate
  else if tid == "data-processing" then some dataProcessingTemplate
  else if tid == "notification" then some notificationTemplate
  else none

end Templates

/-- `node.type.includes('Trigger') || node.type === 'n8n-nodes-base.start'`,
the trigger-node test shared by the generator validator, the setup
instructions and the common-infrastructure trigger rule. -/
def hasTriggerType (t : String) : Bool :=
  strIncludes t "Trigger" || t == "n8n-nodes-base.start"

mutual

/-- String display of a JS value, as produced inside a template literal. -/
def jShow : JValue → String
  | .str s => s
  | .num n => toString n
  | .bool b => if b then "true" else "false"
  | .null => "null"
  | .arr xs => jShowList xs
  | .obj _ => "[object Object]"

/-- Array display: elements joined by commas. -/
def jShowList : List JValue → String
  | [] => ""
  | [x] => jShow x
  | x :: xs => jShow x ++ "," ++ jShowList xs

end

/-- `${x}` where `x` may be `undefined`. -/
def jShowOpt (o : Option JValue) : String :=
  match o with
  | some v => jShow v
  | none => "undefined"

/-- `x || d` rendered as display text. -/
def jsOrShow (o : Option JValue) (d : String) : String :=
  match o with
  | some v => if jsTruthy v then jShow v else d
  | none => d

/-- `x === "s"` for a possibly-undefined value. -/
def jIsStrVal (o : Option JValue) (s : String) : Bool :=
  match o with
  | some (.str t) => t == s
  | _ => false

namespace Generator

/-- The cron-expression selection used for `requirements.scheduling`, with
`0 9 * * *` as the fallthrough default. -/
def cronForScheduling (s : String) : String :=
  if s == "hourly" then "0 * * * *"
  else if s == "daily" then "0 9 * * *"
  else if s == "weekly" then "0 9 * * 1"
  else if s == "monthly" then "0 9 1 * *"
  else "0 9 * * *"

/-- The template-parameter customization of `createNodeStructure` for a
recognized template id (everything else keeps the empty parameter bag). -/
def buildTemplateParams (tid : String) (req : WorkflowRequirements) :
    TemplateParameters :=
  if tid == "social-media-monitoring" then
    { platforms := some (["twitter", "reddit"].filter
        (fun p => strIncludes (jsToLower req.description) p))
      keywords := some (match kwScan (jsToLower req.description).toList with
        | some cap => (jsSplitComma cap).map (fun k => jsTrim k)
        | none => ["automation", "workflow"]) }
  else if tid == "api-request" then
    { apiUrl := some (jsOrStr (apiScan req.description.toList)
        "https://api.example.com/data")
      method := some (if strIncludes (jsToLower req.description) "post" then "POST"
        else "GET") }
  else if tid == "notification" then
    { trigger := some (if req.operations.contains "schedule" then "schedule"
        else "manual")
      notificationChannels := some
        ((if strIncludes (jsToLower req.description) "email" then ["email"] else []) ++
         (if strIncludes (jsToLower req.description) "slack" then ["slack"] else []))
      triggerConfig := match req.scheduling with
        | some s =>
          if s == "" then none
          else some { schedule := some (cronForScheduling s) }
        | none => none }
  else {}

/-- `requirements.templateId && workflowTemplates[requirements.templateId]`:
the template used by `createNodeStructure`, when any. -/
def templateFor (req : WorkflowRequirements) : Option WorkflowTemplate :=
  match req.templateId with
  | some tid => if tid == "" then none else Templates.workflowTemplates tid
  | none => none

/-- The fixed function-node code of the manual node-creation path. -/
def manualFunctionCode : String :=
  "// Process the data from the previous node\nreturn items.map(item => \x7b\n  // Add your processing logic here\n  return \x7b\n    json: \x7b\n      ...item.json,\n      processed: true,\n      timestamp: new Date().toISOString()\n    \x7d\n  \x7d;\n\x7d);"

/-- Parameter/name customization of the manual node-creation path. -/
def manualCustom (nodeType : String) (req : WorkflowRequirements) :
    List (String × JValue) × Option String :=
  if nodeType == "n8n-nodes-base.scheduleTrigger" &&
      (match req.scheduling with
       | some s => s != ""
       | none => false) then
    ([("interval", .arr [.obj [("field", .str "cronExpression"),
       ("expression", .str (cronForScheduling (req.scheduling.getD "")))]])],
     some "Schedule Trigger")
  else if nodeType == "n8n-nodes-base.httpRequest" then
    ([("url", .str (jsOrStr (apiScan req.description.toList)
        "https://api.example.com/data")),
      ("method", .str (if strIncludes (jsToLower req.description) "post" then "POST"
        else "GET"))],
     some "API Request")
  else if nodeType == "n8n-nodes-base.function" then
    ([("functionCode", .str manualFunctionCode)], some "Process Data")
  else ([], none)

/-- The `nodeTypes.forEach` loop of the manual node-creation path: unknown
catalog identifiers are skipped (`if (!definition) return`), the x position
advances by 200 only for created nodes, while the id index follows the
original list position. -/
def manualLoop (req : WorkflowRequirements) :
    List String → Nat → Int → List N8nNode
  | [], _, _ => []
  | t :: rest, index, x =>
    match nodeDefinitions t with
    | none => manualLoop req rest (index + 1) x
    | some defn =>
      let custom := manualCustom t req
      let node := createNode defn (createNodeId t (index + 1)) (x, 300)
        custom.1 custom.2
      node :: manualLoop req rest (index + 1) (x + 200)

/-- `createNodeStructure`: template-generated nodes when a template id is
set and known, the manual node-creation loop otherwise. -/
def createNodeStructure (nodeTypes : List String) (req : WorkflowRequirements) :
    Except String (List N8nNode) :=
  match templateFor req with
  | some tpl =>
    (tpl.generateWorkflow
      { name := req.name, description := some req.description,
        parameters := buildTemplateParams (req.templateId.getD "") req }).map
      (fun w => w.nodes)
  | none => .ok (manualLoop req nodeTypes 0 100)

/-- The first connection whose target display name matches no node, if any
(`validateWorkflow`'s connection loop). -/
def findDangling (w : N8nWorkflow) : Option String :=
  w.connections.findSome? (fun e =>
    e.2.findSome? (fun c =>
      if w.nodes.any (fun n => n.name == c.node) then none else some c.node))

/-- `validateWorkflow` of the workflow generator: throws (models as
`Except.error`) on a missing name, an empty node list, a missing trigger
node, or a connection to a non-existent node — in that order. -/
def validateWorkflow (w : N8nWorkflow) : Except String Unit :=
  if w.name == "" then .error "Workflow must have a name"
  else if w.nodes.isEmpty then .error "Workflow must have at least one node"
  else if !(w.nodes.any (fun n => hasTriggerType n.type)) then
    .error "Workflow must have a trigger node"
  else
    match findDangling w with
    | some t => .error ("Connection points to non-existent node: " ++ t)
    | none => .ok ()

/-- `node.parameters.interval?.[0]?.expression` (the only shapes produced
for `interval` are arrays of objects). -/
def intervalExpr (params : List (String × JValue)) : Option JValue :=
  match lookupJ params "interval" with
  | some (.arr (first :: _)) =>
    match first with
    | .obj fields => lookupJ fields "expression"
    | _ => none
  | _ => none

/-- The per-node explanation text of `generateExplanations`. -/
def explFor (node : N8nNode) : String :=
  let base := "Node \"" ++ node.name ++ "\" (" ++
    replaceFirstOcc node.type "n8n-nodes-base." ++ "): "
  if node.type == "n8n-nodes-base.start" then
    base ++ "Starts the workflow execution manually."
  else if node.type == "n8n-nodes-base.scheduleTrigger" then
    base ++ "Triggers the workflow on schedule (" ++
      jsOrShow (intervalExpr node.parameters) "0 * * * *" ++ ")."
  else if node.type == "n8n-nodes-base.httpRequest" then
    base ++ "Makes a " ++ jShowOpt (lookupJ node.parameters "method") ++
      " request to " ++ jShowOpt (lookupJ node.parameters "url") ++ "."
  else if node.type == "n8n-nodes-base.function" then
    base ++ "Processes data using custom JavaScript code."
  else if node.type == "n8n-nodes-base.if" then
    base ++ "Splits the workflow based on conditions."
  else if node.type == "n8n-nodes-base.set" then
    base ++ "Sets or modifies data values."
  else if node.type == "n8n-nodes-base.email" then
    base ++ "Sends email to " ++ jShowOpt (lookupJ node.parameters "toEmail") ++ "."
  else if node.type == "n8n-nodes-base.slack" then
    base ++ "Sends message to Slack channel " ++
      jShowOpt (lookupJ node.parameters "channel") ++ "."
  else if node.type == "n8n-nodes-base.googleSheets" then
    base ++ (if jIsStrVal (lookupJ node.parameters "operation") "read" then
      "Reads data from" else "Writes data to") ++ " Google Sheets."
  else if node.type == "n8n-nodes-base.twitter" then
    base ++ (if jIsStrVal (lookupJ node.parameters "operation") "search" then
      "Searches for tweets" else "Posts to Twitter") ++ "."
  else if node.type == "n8n-nodes-base.reddit" then
    base ++ (if jIsStrVal (lookupJ node.parameters "operation") "search" then
      "Searches Reddit" else "Interacts with Reddit") ++ "."
  else base ++ "Performs node-specific operations."

/-- `generateExplanations` (the `requirements` argument is unused by the
source body as well). -/
def generateExplanations (w : N8nWorkflow) (req : WorkflowRequirements) :
    List (String × String) :=
  w.nodes.foldl (fun acc node => upsert acc node.name (explFor node)) []

/-- Credential type required by a node, per `generateSetupInstructions`. -/
def credTypeFor (node : N8nNode) : Option String :=
  if node.type == "n8n-nodes-base.httpRequest" &&
      !(jIsStrVal (lookupJ node.parameters "authentication") "none") then
    some "HTTP Authentication"
  else if node.type == "n8n-nodes-base.email" then some "Email (SMTP)"
  else if node.type == "n8n-nodes-base.googleSheets" then some "Google Sheets"
  else if node.type == "n8n-nodes-base.slack" then some "Slack"
  else if node.type == "n8n-nodes-base.twitter" then some "Twitter"
  else if node.type == "n8n-nodes-base.reddit" then some "Reddit"
  else none

/-- `generateSetupInstructions`. -/
def generateSetupInstructions (w : N8nWorkflow) : String :=
  let credentialTypes := w.nodes.foldl (fun acc n =>
    match credTypeFor n with
    | some c => if acc.contains c then acc else acc ++ [c]
    | none => acc) []
  let instructions := "## Setup Instructions for \"" ++ w.name ++ "\"\n\n"
  let instructions :=
    if credentialTypes.length > 0 then
      instructions ++ "### Required Credentials\n\n" ++
        String.join (credentialTypes.map (fun c => "- " ++ c ++ "\n")) ++
        "\nPlease set up the above credentials in n8n before running the workflow.\n\n"
    else instructions
  let instructions := instructions ++ "### Usage Instructions\n\n"
  let instructions :=
    match w.nodes.find? (fun n => hasTriggerType n.type) with
    | some tn =>
      if tn.type == "n8n-nodes-base.start" then
        instructions ++ "1. This workflow needs to be started manually from the n8n editor.\n"
      else if tn.type == "n8n-nodes-base.scheduleTrigger" then
        instructions ++
          "1. This workflow will run automatically based on the configured schedule.\n" ++
          "2. You must activate the workflow to enable the schedule.\n"
      else instructions
    | none => instructions
  match w.nodes.find? (fun n => n.type == "n8n-nodes-base.httpRequest") with
  | some httpNode =>
    instructions ++ "\n### API Configuration\n\n" ++
      "The workflow is configured to make " ++
      jShowOpt (lookupJ httpNode.parameters "method") ++ " requests to: " ++
      jShowOpt (lookupJ httpNode.parameters "url") ++ "\n" ++
      "You may need to update this URL or add authentication depending on your API requirements.\n"
  | none => instructions

/-- The input shape of the `generateWorkflow` tool. -/
structure GenInput where
  description : String
  requiredNodes : Option (List String) := none
  complexity : Option String := none
  includeCredentials : Bool := false

/-- The success payload of the `generateWorkflow` tool. -/
structure GenPayload where
  workflow : N8nWorkflow
  explanations : List (String × String)
  setupInstructions : Option String

/-- The `ExecuteResult` shape: a success payload or an error message. -/
inductive ExecuteResult where
  | data (payload : GenPayload)
  | error (message : String)

/-- `generateWorkflow`: parse requirements, build nodes and connections,
validate, and return the workflow with explanations; a validation throw (or
a template throw) is caught and becomes an error result. -/
def generateWorkflow (input : GenInput) : ExecuteResult :=
  if input.description == "" then .error "Workflow description is required"
  else
    let req0 := parseWorkflowRequirements input.description
    let req :=
      match input.complexity with
      | some c => if c == "" then req0 else { req0 with complexity := c }
      | none => req0
    let needed := determineRequiredNodes req (input.requiredNodes.getD [])
    match createNodeStructure needed req with
    | .error e => .error e
    | .ok nodes =>
      let connections := createConnections nodes
      let workflow : N8nWorkflow :=
        { name := req.name, description := some req.description,
          nodes := nodes, connections := connections, active := false,
          settings := [("executionOrder", .str "v1"),
                       ("saveExecutionProgress", .bool true),
                       ("saveManualExecutions", .bool true)] }
      match validateWorkflow workflow with
      | .error e => .error e
      | .ok _ =>
        .data { workflow := workflow
                explanations := generateExplanations workflow req
                setupInstructions :=
                  if input.includeCredentials then
                    some (generateSetupInstructions workflow)
                  else none }

end Generator

/-! ## Rule-based validator (`common-infrastructure/index.ts`)

The pure core of `validateWorkflow` there: the rule table and its
application to an already-fetched workflow (the workflow-id check and the
API fetch around it are I/O).  -/

/-- The result shape of one validation rule. -/
structure RuleResult where
  pass : Bool
  issues : List String

namespace CommonInfra

/-- The `trigger` rule. -/
def triggerRule (wf : N8nWorkflow) : RuleResult :=
  let hasTrigger := wf.nodes.any (fun node => hasTriggerType node.type)
  { pass := hasTrigger
    issues := if hasTrigger then [] else ["Workflow must have at least one trigger node"] }

/-- `wf.settings?.errorWorkflow` truthiness. -/
def settingsErrorWorkflow (wf : N8nWorkflow) : Bool :=
  match lookupJ wf.settings "errorWorkflow" with
  | some v => jsTruthy v
  | none => false

/-- The `errorHandling` rule. -/
def errorHandlingRule (wf : N8nWorkflow) : RuleResult :=
  let hasErrorHandling :=
    settingsErrorWorkflow wf || wf.nodes.any (fun node => node.continueOnFail)
  { pass := hasErrorHandling
    issues := if hasErrorHandling then [] else ["Workflow lacks error handling mechanisms"] }

/-- The `naming` rule: short/missing workflow name, duplicate node names
(each duplicate beyond the first), and generic node names. -/
def namingRule (wf : N8nWorkflow) : RuleResult :=
  let issues0 :=
    if wf.name.length < 3 then ["Workflow name is too short or missing"] else []
  let issues :=
    (wf.nodes.foldl (fun acc node =>
      let issues1 :=
        if acc.1.contains node.name then
          acc.2 ++ ["Duplicate node name: " ++ node.name]
        else acc.2
      let seen1 :=
        if acc.1.contains node.name then acc.1 else acc.1 ++ [node.name]
      let issues2 :=
        if node.name == node.type || strIncludes node.name "Node" then
          issues1 ++ ["Generic node name detected: " ++ node.name]
        else issues1
      (seen1, issues2)) (([] : List String), issues0)).2
  { pass := issues.isEmpty, issues := issues }

/-- The `credentials` rule. -/
def credentialsRule (wf : N8nWorkflow) : RuleResult :=
  let nodesWithCredentials := wf.nodes.filter (fun node =>
    match node.credentials with
    | some l => !l.isEmpty
    | none => false)
  let issues :=
    if nodesWithCredentials.length > 0 then
      ["Workflow uses credentials that should be verified"]
    else []
  { pass := issues.isEmpty, issues := issues }

/-- The `rules` table, in object-literal order. -/
def ruleEntries : List (String × (N8nWorkflow → RuleResult)) :=
  [("trigger", triggerRule), ("errorHandling", errorHandlingRule),
   ("naming", namingRule), ("credentials", credentialsRule)]

/-- `rules[r]`. -/
def ruleLookup (r : String) : Option (N8nWorkflow → RuleResult) :=
  lookupJ ruleEntries r

/-- The `results` object: all rules when `"all"` is requested, otherwise
the requested rules that exist, in request order (unknown names skipped). -/
def computeResults (wf : N8nWorkflow) (validationRules : List String) :
    List (String × RuleResult) :=
  if validationRules.contains "all" then
    ruleEntries.map (fun e => (e.1, e.2 wf))
  else
    validationRules.foldl (fun acc r =>
      match ruleLookup r with
      | some f => upsert acc r (f wf)
      | none => acc) []

/-- The issue-collection loop: `validationPassed` and the prefixed issues of
every failing rule. -/
def applyValidationRules (wf : N8nWorkflow) (validationRules : List String) :
    Bool × List String :=
  let results := computeResults wf validationRules
  (results.all (fun e => e.2.pass),
   (results.map (fun e =>
     if e.2.pass then []
     else e.2.issues.map (fun i => "[" ++ e.1 ++ "] " ++ i))).flatten)

end CommonInfra

/-! ## Template application and social-post tools (`applyTemplate.ts`,
`createSocialPostWorkflow.ts`) -/

/-- Outcome of a construction tool before the persistence call: a reported
error, or the workflow document handed to `n8nApi.createWorkflow`. -/
inductive ToolOutcome where
  | error (message : String)
  | created (workflow : N8nWorkflow)

/-- The parameter bag of `applyTemplate`, typed by the keys the four
builders and the override step read. -/
structure ApplyTemplateParameters where
  apiUrl : Option String := none
  method : Option String := none
  platforms : Option (List String) := none
  email : Option String := none
  description : Option String := none
  tags : Option (List String) := none

/-- The input shape of `applyTemplate`. -/
structure ApplyTemplateInput where
  template_id : String
  name : String
  parameters : ApplyTemplateParameters := {}

namespace ApplyTemplateTool

/-- `createApiRequestWorkflow` (nodes carry no `id` in this tool; modeled
as the empty string). -/
def createApiRequestWorkflow (name : String) (parameters : ApplyTemplateParameters) :
    N8nWorkflow :=
  let apiUrl := jsOrStr parameters.apiUrl "https://api.example.com/data"
  let method := jsOrStr parameters.method "GET"
  { name := name
    description := some "Workflow created from the API Request template"
    nodes :=
      [{ id := "", name := "Start", type := "n8n-nodes-base.start",
         typeVersion := 1, position := (250, 300), parameters := [] },
       { id := "", name := "HTTP Request", type := "n8n-nodes-base.httpRequest",
         typeVersion := 1, position := (450, 300),
         parameters := [("url", .str apiUrl), ("method", .str method),
           ("authentication", .str "none"), ("options", .obj [])] },
       { id := "", name := "Process Data", type := "n8n-nodes-base.set",
         typeVersion := 1, position := (650, 300),
         parameters := [("values", .obj [("string", .arr
           [.obj [("name", .str "processedData"),
                  ("value", .str "=\x7b\x7b $json \x7d\x7d")]])])] }]
    connections :=
      [("Start", [⟨"HTTP Request", "main", 0⟩]),
       ("HTTP Request", [⟨"Process Data", "main", 0⟩])]
    active := false
    settings := [("saveExecutionProgress", .bool true),
                 ("saveManualExecutions", .bool true)]
    tags := some ["api", "template"] }

/-- `createSocialMediaWorkflow` (the `platforms` parameter is read but the
produced document does not depend on it). -/
def createSocialMediaWorkflow (name : String) (parameters : ApplyTemplateParameters) :
    N8nWorkflow :=
  { name := name
    description := some "Workflow created from the Social Media Posting template"
    nodes :=
      [{ id := "", name := "Start", type := "n8n-nodes-base.start",
         typeVersion := 1, position := (250, 300), parameters := [] },
       { id := "", name := "Create Post Content", type := "n8n-nodes-base.set",
         typeVersion := 1, position := (450, 300),
         parameters := [("values", .obj [("string", .arr
           [.obj [("name", .str "postContent"), ("value", .str "Sample post content")],
            .obj [("name", .str "postTitle"), ("value", .str "Sample post title")]])])] }]
    connections := [("Start", [⟨"Create Post Content", "main", 0⟩])]
    active := false
    settings := [("saveExecutionProgress", .bool true),
                 ("saveManualExecutions", .bool true)]
    tags := some ["social", "marketing", "template"] }

/-- `createDataProcessingWorkflow`. -/
def createDataProcessingWorkflow (name : String)
    (parameters : ApplyTemplateParameters) : N8nWorkflow :=
  { name := name
    description := some "Workflow created from the Data Processing Pipeline template"
    nodes :=
      [{ id := "", name := "Start", type := "n8n-nodes-base.start",
         typeVersion := 1, position := (250, 300), parameters := [] },
       { id := "", name := "Data Source", type := "n8n-nodes-base.httpRequest",
         typeVersion := 1, position := (450, 300),
         parameters := [("url", .str "https://api.example.com/data"),
           ("method", .str "GET"), ("authentication", .str "none"),
           ("options", .obj [])] },
       { id := "", name := "Transform Data", type := "n8n-nodes-base.function",
         typeVersion := 1, position := (650, 300),
         parameters := [("functionCode",
           .str "// Process the data from the previous node\nreturn items;")] },
       { id := "", name := "Format Data", type := "n8n-nodes-base.set",
         typeVersion := 1, position := (850, 300),
         parameters := [("values", .obj [("string", .arr
           [.obj [("name", .str "processedData"),
                  ("value", .str "=\x7b\x7b $json \x7d\x7d")]])])] }]
    connections :=
      [("Start", [⟨"Data Source", "main", 0⟩]),
       ("Data Source", [⟨"Transform Data", "main", 0⟩]),
       ("Transform Data", [⟨"Format Data", "main", 0⟩])]
    active := false
    settings := [("saveExecutionProgress", .bool true),
                 ("saveManualExecutions", .bool true)]
    tags := some ["data", "transformation", "template"] }

/-- `createNotificationWorkflow`. -/
def createNotificationWorkflow (name : String)
    (parameters : ApplyTemplateParameters) : N8nWorkflow :=
  { name := name
    description := some "Workflow created from the Notification System template"
    nodes :=
      [{ id := "", name := "Start", type := "n8n-nodes-base.start",
         typeVersion := 1, position := (250, 300), parameters := [] },
       { id := "", name := "Prepare Notification", type := "n8n-nodes-base.set",
         typeVersion := 1, position := (450, 300),
         parameters := [("values", .obj [("string", .arr
           [.obj [("name", .str "notificationTitle"),
                  ("value", .str "Notification Title")],
            .obj [("name", .str "notificationBody"),
                  ("value", .str "Notification Body")]])])] },
       { id := "", name := "Send Email", type := "n8n-nodes-base.email",
         typeVersion := 1, position := (650, 300),
         parameters := [("fromEmail", .str "notifications@example.com"),
           ("toEmail", .str (jsOrStr parameters.email "user@example.com")),
           ("subject", .str "=\x7b\x7b $json.notificationTitle \x7d\x7d"),
           ("text", .str "=\x7b\x7b $json.notificationBody \x7d\x7d")] }]
    connections :=
      [("Start", [⟨"Prepare Notification", "main", 0⟩]),
       ("Prepare Notification", [⟨"Send Email", "main", 0⟩])]
    active := false
    settings := [("saveExecutionProgress", .bool true),
                 ("saveManualExecutions", .bool true)]
    tags := some ["notification", "email", "template"] }

/-- `applyTemplate` up to the persistence call: input checks, template
dispatch (unknown ids hard-fail with `Template with ID "…" not found`), and
the description/tags overrides applied to the built document. -/
def applyTemplate (input : ApplyTemplateInput) : ToolOutcome :=
  if input.template_id == "" then .error "Template ID is required"
  else if input.name == "" then .error "Workflow name is required"
  else
    let base : Option N8nWorkflow :=
      if input.template_id == "api-request" then
        some (createApiRequestWorkflow input.name input.parameters)
      else if input.template_id == "social-media" then
        some (createSocialMediaWorkflow input.name input.parameters)
      else if input.template_id == "data-processing" then
        some (createDataProcessingWorkflow input.name input.parameters)
      else if input.template_id == "notification" then
        some (createNotificationWorkflow input.name input.parameters)
      else none
    match base with
    | none => .error ("Template with ID \"" ++ input.template_id ++ "\" not found")
    | some wd0 =>
      let wd1 :=
        match input.parameters.description with
        | some d => if d == "" then wd0 else { wd0 with description := some d }
        | none => wd0
      let wd2 :=
        match input.parameters.tags with
        | some t => { wd1 with tags := some t }
        | none => wd1
      .created wd2

end ApplyTemplateTool

/-- The input shape of `createSocialPostWorkflow` (`platforms` destructures
to `[]`, `content_source` to `'manual'`). -/
structure SocialPostInput where
  name : String
  platforms : List String := []
  content_source : Option String := none

namespace SocialPost

/-- `'Post to ' + platform.charAt(0).toUpperCase() + platform.slice(1)`. -/
def postNodeName (platform : String) : String :=
  "Post to " ++ capitalizeFirst platform

/-- The platform node of one loop iteration (every platform yields a node;
unrecognized ones get a generic HTTP node). -/
def platformNode (platform : String) (x : Int) : N8nNode :=
  if jsToLower platform == "twitter" || jsToLower platform == "x" then
    { id := "", name := postNodeName platform, type := "n8n-nodes-base.twitter",
      typeVersion := 1, position := (x, 300),
      parameters := [("text", .str "=\x7b\x7b $json.postContent \x7d\x7d"),
        ("operation", .str "create")] }
  else if jsToLower platform == "linkedin" then
    { id := "", name := postNodeName platform, type := "n8n-nodes-base.linkedIn",
      typeVersion := 1, position := (x, 300),
      parameters := [("text", .str "=\x7b\x7b $json.postContent \x7d\x7d"),
        ("operation", .str "create")] }
  else if jsToLower platform == "facebook" then
    { id := "", name := postNodeName platform,
      type := "n8n-nodes-base.facebookGraphApi",
      typeVersion := 1, position := (x, 300),
      parameters := [("message", .str "=\x7b\x7b $json.postContent \x7d\x7d"),
        ("operation", .str "create")] }
  else
    { id := "", name := postNodeName platform, type := "n8n-nodes-base.httpRequest",
      typeVersion := 1, position := (x, 300),
      parameters := [("url", .str ("https://api.example.com/" ++ platform ++ "/post")),
        ("method", .str "POST"),
        ("body", .obj [("content", .str "=\x7b\x7b $json.postContent \x7d\x7d"),
          ("title", .str "=\x7b\x7b $json.postTitle \x7d\x7d")]),
        ("bodyContentType", .str "json")] }

/-- The `for (const platform of platforms)` loop: each platform node is
connected *from* the previous node (`lastNodeName` advances every
iteration, so the wiring is a sequential chain, not a fan-out). -/
def socialLoop : List String → ConnMap → String → Int → List N8nNode × ConnMap
  | [], conns, _, _ => ([], conns)
  | p :: rest, conns, lastName, x =>
    let nd := platformNode p x
    let conns1 := pushConn conns lastName ⟨nd.name, "main", 0⟩
    let r := socialLoop rest conns1 nd.name (x + 200)
    (nd :: r.1, r.2)

/-- `createSocialPostWorkflow` up to the persistence call. -/
def createSocialPostWorkflow (input : SocialPostInput) : ToolOutcome :=
  if input.name == "" then .error "Workflow name is required"
  else if input.platforms.isEmpty then
    .error "At least one social media platform is required"
  else
    let contentSource := input.content_source.getD "manual"
    let startNode : N8nNode :=
      { id := "", name := "Start", type := "n8n-nodes-base.start",
        typeVersion := 1, position := (250, 300), parameters := [] }
    let contentSourceNode : N8nNode :=
      { id := "", name := "Content Source"
        type := if contentSource == "rss" then "n8n-nodes-base.rssFeedRead"
          else "n8n-nodes-base.set"
        typeVersion := 1, position := (450, 300)
        parameters :=
          if contentSource == "manual" then
            [("values", .obj [("string", .arr
              [.obj [("name", .str "postContent"), ("value", .str "")],
               .obj [("name", .str "postTitle"), ("value", .str "")],
               .obj [("name", .str "postImage"), ("value", .str "")]])])]
          else [] }
    let conns : ConnMap := [("Start", [⟨"Content Source", "main", 0⟩])]
    let r := socialLoop input.platforms conns "Content Source" 650
    .created
        { name := input.name
          description := some ("Social media posting workflow for " ++
            String.intercalate ", " input.platforms)
          nodes := startNode :: contentSourceNode :: r.1
          connections := r.2
          active := false
          settings := [("saveExecutionProgress", .bool true),
                       ("saveManualExecutions", .bool true)]
          tags := some ("social" :: input.platforms) }

end SocialPost

/-! ## Structural well-formedness (the property claimed for successful
generator results) -/

/-- A structurally well-formed workflow: non-empty name, at least one node,
a trigger-or-start node, and no connection target that misses every node
display name. -/
def wellFormedWorkflow (w : N8nWorkflow) : Prop :=
  w.name ≠ "" ∧ w.nodes ≠ [] ∧
  (∃ n ∈ w.nodes, hasTriggerType n.type = true) ∧
  (∀ e ∈ w.connections, ∀ c ∈ e.2, ∃ n ∈ w.nodes, n.name = c.node)

/-- Well-formedness of a generator result: every success payload carries a
structurally well-formed workflow (vacuous on error results). -/
def wellFormedResult : Generator.ExecuteResult → Prop
  | .data p => wellFormedWorkflow p.workflow
  | .error _ => True

/-- The connections map carried by a construction-tool outcome (empty for
errors); lets counterexamples state facts about the built document. -/
def connsOf : ToolOutcome → ConnMap
  | .created wf => wf.connections
  | .error _ => []

/-! ## Concrete inputs used by witnesses and counterexamples -/

/-- A branch node followed by two regular nodes. -/
def exC1nodes : List N8nNode :=
  [{ id := "if_1", name := "IF", type := "n8n-nodes-base.if", typeVersion := 1,
     position := (100, 300), parameters := [] },
   { id := "set_1", name := "A", type := "n8n-nodes-base.set", typeVersion := 1,
     position := (300, 300), parameters := [] },
   { id := "set_2", name := "B", type := "n8n-nodes-base.set", typeVersion := 1,
     position := (500, 300), parameters := [] }]

/-- Three regular nodes with declared outputs and no branch node. -/
def exC7nodes : List N8nNode :=
  [{ id := "set_1", name := "S", type := "n8n-nodes-base.set", typeVersion := 1,
     position := (100, 300), parameters := [] },
   { id := "set_2", name := "T", type := "n8n-nodes-base.set", typeVersion := 1,
     position := (300, 300), parameters := [] },
   { id := "set_3", name := "U", type := "n8n-nodes-base.set", typeVersion := 1,
     position := (500, 300), parameters := [] }]

/-- A one-node workflow whose single connection targets a missing node. -/
def exC2w : N8nWorkflow :=
  { name := "Test Flow"
    nodes := [{ id := "start_1", name := "Start", type := "n8n-nodes-base.start",
                typeVersion := 1, position := (250, 300), parameters := [] }]
    connections := [("Start", [⟨"Ghost", "main", 0⟩])] }

/-- A workflow with an empty node list. -/
def exC4w : N8nWorkflow :=
  { name := "My Flow", nodes := [], connections := [] }

/-- The node-type of the C5 scenario: defaults `{url: "", method: "GET"}`. -/
def exC5def : NodeDefinition :=
  { type := "n8n-nodes-base.httpRequest", typeVersion := 1
    description := "Make HTTP requests to any API endpoint"
    defaultName := "HTTP Request"
    defaultParameters := [("url", .str ""), ("method", .str "GET")]
    category := "action", inputs := ["main"], outputs := ["main"] }

/-- Requirements with no detected template (manual build path). -/
def exC6req : Generator.WorkflowRequirements :=
  { name := "Generated Workflow", description := "hello", operations := [],
    dataTypes := [], conditionalLogic := false, complexity := "simple" }

/-- A two-platform social-post request. -/
def exC3input : SocialPostInput :=
  { name := "S", platforms := ["twitter", "linkedin"] }

/-- Whether a generator result is a success payload. -/
def isDataResult : Generator.ExecuteResult → Bool
  | .data _ => true
  | .error _ => false

/-! # Theorems -/

/-! ## Association-list and connection-map lemmas -/

theorem lookupJ_upsert_self {α : Type} (m : List (String × α)) (k : String) (v : α) :
    lookupJ (upsert m k v) k = some v := by
  induction m with
  | nil => simp [upsert, lookupJ]
  | cons e rest ih =>
    by_cases h : e.1 == k
    · simp [upsert, h, lookupJ]
    · simp only [upsert, h, if_false, Bool.false_eq_true]
      simp only [lookupJ, List.find?] at ih ⊢
      simp [h, ih]

theorem lookupJ_upsert_ne {α : Type} (m : List (String × α)) (k k' : String) (v : α)
    (h : k ≠ k') : lookupJ (upsert m k v) k' = lookupJ m k' := by
  have hkk : (k == k') = false := beq_eq_false_iff_ne.mpr h
  induction m with
  | nil => simp [upsert, lookupJ, List.find?, hkk]
  | cons e rest ih =>
    by_cases he : e.1 == k
    · have he' : e.1 = k := by simpa using he
      simp [upsert, he, lookupJ, List.find?, he', hkk]
    · simp only [upsert, he, if_false, Bool.false_eq_true]
      simp only [lookupJ, List.find?] at ih ⊢
      cases hk : (e.1 == k') <;> simp [hk, ih]

theorem connTargets_pushConn_self (m : ConnMap) (src : String) (c : N8nConnection) :
    connTargets (pushConn m src c) src = connTargets m src ++ [c] := by
  induction m with
  | nil => simp [pushConn, connTargets, List.find?]
  | cons e rest ih =>
    by_cases he : e.1 == src
    · simp [pushConn, he, connTargets, List.find?]
    · simp only [pushConn, he, if_false, Bool.false_eq_true]
      simp only [connTargets, List.find?] at ih ⊢
      simp [he, ih]

theorem connTargets_pushConn_ne (m : ConnMap) (src s : String) (c : N8nConnection)
    (h : s ≠ src) : connTargets (pushConn m src c) s = connTargets m s := by
  have hss : (src == s) = false := beq_eq_false_iff_ne.mpr (Ne.symm h)
  induction m with
  | nil => simp [pushConn, connTargets, List.find?, hss]
  | cons e rest ih =>
    by_cases he : e.1 == src
    · have he' : e.1 = src := by simpa using he
      simp [pushConn, he, connTargets, List.find?, he', hss]
    · simp only [pushConn, he, if_false, Bool.false_eq_true]
      simp only [connTargets, List.find?] at ih ⊢
      cases hk : (e.1 == s) <;> simp [hk, ih]

theorem totalTargets_pushConn (m : ConnMap) (src : String) (c : N8nConnection) :
    totalTargets (pushConn m src c) = totalTargets m + 1 := by
  induction m with
  | nil => simp [pushConn, totalTargets]
  | cons e rest ih =>
    by_cases he : e.1 == src
    · simp [pushConn, he, totalTargets]
      omega
    · simp only [pushConn, he, if_false, Bool.false_eq_true]
      simp only [totalTargets, List.map, List.sum_cons] at ih ⊢
      omega

theorem mem_connTargets_pushConn (m : ConnMap) (src : String) (c : N8nConnection) :
    c ∈ connTargets (pushConn m src c) src := by
  rw [connTargets_pushConn_self]
  simp

theorem mem_connTargets_pushConn_of_mem (m : ConnMap) (src s : String)
    (c c0 : N8nConnection) (h : c0 ∈ connTargets m s) :
    c0 ∈ connTargets (pushConn m src c) s := by
  by_cases hs : s = src
  · subst hs
    rw [connTargets_pushConn_self]
    exact List.mem_append_left _ h
  · rw [connTargets_pushConn_ne m src s c hs]
    exact h

/-! ## `connGo` invariants -/

theorem connGo_preserve (m : ConnMap) (ns : List N8nNode) (s : String)
    (h : ∀ n ∈ ns, n.name ≠ s) :
    connTargets (Generator.connGo m ns) s = connTargets m s := by
  induction m, ns using Generator.connGo.induct with
  | case1 m => rfl
  | case2 m x => rfl
  | case3 m x y hx => simp [Generator.connGo, hx]
  | case4 m x y hx =>
    simp only [Generator.connGo, hx, if_false, Bool.false_eq_true]
    exact connTargets_pushConn_ne m x.name s _ (Ne.symm (h x (by simp)))
  | case5 m x y z rest hx ih =>
    simp only [Generator.connGo, hx, if_true]
    exact ih (fun n hn => h n (List.mem_cons_of_mem x hn))
  | case6 m x y z rest hx hif ih =>
    simp only [Generator.connGo, hx, hif, if_false, if_true, Bool.false_eq_true]
    rw [ih (fun n hn => h n (List.mem_cons_of_mem x (List.mem_cons_of_mem y hn)))]
    rw [connTargets_pushConn_ne _ x.name s _ (Ne.symm (h x (by simp)))]
    exact connTargets_pushConn_ne m x.name s _ (Ne.symm (h x (by simp)))
  | case7 m x y z rest hx hif ih =>
    simp only [Generator.connGo, hx, hif, if_false, Bool.false_eq_true]
    rw [ih (fun n hn => h n (List.mem_cons_of_mem x hn))]
    exact connTargets_pushConn_ne m x.name s _ (Ne.symm (h x (by simp)))

theorem connGo_mem_mono (m : ConnMap) (ns : List N8nNode) (s : String)
    (c0 : N8nConnection) (h : c0 ∈ connTargets m s) :
    c0 ∈ connTargets (Generator.connGo m ns) s := by
  induction m, ns using Generator.connGo.induct with
  | case1 m => exact h
  | case2 m x => exact h
  | case3 m x y hx => simpa [Generator.connGo, hx] using h
  | case4 m x y hx =>
    simp only [Generator.connGo, hx, if_false, Bool.false_eq_true]
    exact mem_connTargets_pushConn_of_mem m x.name s _ c0 h
  | case5 m x y z rest hx ih =>
    simp only [Generator.connGo, hx, if_true]
    exact ih h
  | case6 m x y z rest hx hif ih =>
    simp only [Generator.connGo, hx, hif, if_false, if_true, Bool.false_eq_true]
    exact ih (mem_connTargets_pushConn_of_mem _ x.name s _ c0
      (mem_connTargets_pushConn_of_mem m x.name s _ c0 h))
  | case7 m x y z rest hx hif ih =>
    simp only [Generator.connGo, hx, hif, if_false, Bool.false_eq_true]
    exact ih (mem_connTargets_pushConn_of_mem m x.name s _ c0 h)

theorem connGo_count (m : ConnMap) (ns : List N8nNode)
    (hall : ∀ n ∈ ns, n.type ≠ "n8n-nodes-base.if" ∧ hasOutputs n.type = true) :
    totalTargets (Generator.connGo m ns) = totalTargets m + (ns.length - 1) := by
  induction m, ns using Generator.connGo.induct with
  | case1 m => simp [Generator.connGo]
  | case2 m x => simp [Generator.connGo]
  | case3 m x y hx =>
    have := (hall x (by simp)).2
    simp [this] at hx
  | case4 m x y hx =>
    simp only [Generator.connGo, hx, if_false, Bool.false_eq_true]
    rw [totalTargets_pushConn]
    simp
  | case5 m x y z rest hx ih =>
    have := (hall x (by simp)).2
    simp [this] at hx
  | case6 m x y z rest hx hif ih =>
    have := (hall x (by simp)).1
    simp [this] at hif
  | case7 m x y z rest hx hif ih =>
    simp only [Generator.connGo, hx, hif, if_false, Bool.false_eq_true]
    rw [ih (fun n hn => hall n (List.mem_cons_of_mem x hn))]
    rw [totalTargets_pushConn]
    simp [List.length_cons]
    omega

theorem connGo_wiring (ns : List N8nNode)
    (hall : ∀ n ∈ ns, n.type ≠ "n8n-nodes-base.if" ∧ hasOutputs n.type = true) :
    ∀ (m : ConnMap) (i : Nat) (hi : i + 1 < ns.length),
      (⟨(ns.get ⟨i + 1, hi⟩).name, "main", 0⟩ : N8nConnection) ∈
        connTargets (Generator.connGo m ns)
          ((ns.get ⟨i, Nat.lt_of_succ_lt hi⟩).name) := by
  induction ns with
  | nil => intro m i hi; simp at hi
  | cons x tail ih =>
    intro m i hi
    have hx : hasOutputs x.type = true := (hall x (by simp)).2
    have hxif : x.type ≠ "n8n-nodes-base.if" := (hall x (by simp)).1
    have hxif' : (x.type == "n8n-nodes-base.if") = false := beq_eq_false_iff_ne.mpr hxif
    match i, tail with
    | 0, y :: tail2 =>
      match tail2 with
      | [] =>
        simp only [Generator.connGo, hx, Bool.not_true, if_false, Bool.false_eq_true]
        simpa using mem_connTargets_pushConn m x.name _
      | z :: rest =>
        simp only [Generator.connGo, hx, hxif', Bool.not_true, if_false,
          Bool.false_eq_true]
        simp only [List.get]
        exact connGo_mem_mono _ _ _ _ (mem_connTargets_pushConn m x.name _)
    | Nat.succ j, y :: tail2 =>
      have hj : j + 1 < (y :: tail2).length := by
        simpa [Nat.succ_lt_succ_iff] using hi
      match tail2 with
      | [] => simp at hj
      | z :: rest =>
        simp only [Generator.connGo, hx, hxif', Bool.not_true, if_false,
          Bool.false_eq_true]
        have := ih (fun n hn => hall n (List.mem_cons_of_mem x hn))
          (pushConn m x.name ⟨y.name, "main", 0⟩) j hj
        simpa using this

theorem connGo_if_entry (ns : List N8nNode) :
    ∀ (m : ConnMap) (i : Nat) (hi : i + 2 < ns.length),
      (ns.get ⟨i, by omega⟩).type = "n8n-nodes-base.if" →
      (∀ j (hj : j < i), (ns.get ⟨j, by omega⟩).type ≠ "n8n-nodes-base.if") →
      (ns.map (fun n => n.name)).Nodup →
      connTargets m ((ns.get ⟨i, by omega⟩).name) = [] →
      connTargets (Generator.connGo m ns) ((ns.get ⟨i, by omega⟩).name) =
        [⟨(ns.get ⟨i + 1, by omega⟩).name, "main", 0⟩,
         ⟨(ns.get ⟨i + 2, hi⟩).name, "main", 1⟩] := by
  induction ns with
  | nil => intro m i hi; simp at hi
  | cons x tail ih =>
    intro m i hi hif hprev hnodup hm
    have hsplit : (∀ n ∈ tail, ¬ n.name = x.name) ∧
        (tail.map (fun n => n.name)).Nodup := by
      simpa using hnodup
    have hx_notin : ∀ n ∈ tail, n.name ≠ x.name := hsplit.1
    have hnodup_tail : (tail.map (fun n => n.name)).Nodup := hsplit.2
    cases i with
    | zero =>
      cases tail with
      | nil => simp at hi
      | cons y tail2 =>
        cases tail2 with
        | nil => simp at hi
        | cons z rest =>
          simp only [List.get] at hif hm ⊢
          have hx : hasOutputs x.type = true := by
            rw [hif]; rfl
          have hxif : (x.type == "n8n-nodes-base.if") = true := by
            simp [hif]
          simp only [Generator.connGo, hx, hxif, Bool.not_true, if_false, if_true,
            Bool.false_eq_true]
          rw [connGo_preserve _ _ _ (fun n hn => hx_notin n
            (List.mem_cons_of_mem y hn))]
          rw [connTargets_pushConn_self, connTargets_pushConn_self, hm]
          rfl
    | succ j =>
      cases tail with
      | nil => simp at hi
      | cons y tail2 =>
        have hj2 : j + 2 < (y :: tail2).length := by
          simpa [Nat.succ_lt_succ_iff] using hi
        have hif2 : ((y :: tail2).get ⟨j, by omega⟩).type = "n8n-nodes-base.if" := by
          simpa using hif
        have hprev2 : ∀ k (hk : k < j),
            ((y :: tail2).get ⟨k, by omega⟩).type ≠ "n8n-nodes-base.if" := by
          intro k hk
          have := hprev (k + 1) (by omega)
          simpa using this
        have hxif : x.type ≠ "n8n-nodes-base.if" := by
          have := hprev 0 (by omega)
          simpa using this
        have hxif2 : (x.type == "n8n-nodes-base.if") = false :=
          beq_eq_false_iff_ne.mpr hxif
        have htgt_ne : ((y :: tail2).get ⟨j, by omega⟩).name ≠ x.name :=
          hx_notin _ (List.get_mem _ _ _)
        cases tail2 with
        | nil => simp at hj2
        | cons z rest =>
          by_cases hx : hasOutputs x.type = true
          · simp only [Generator.connGo, hx, hxif2, Bool.not_true, if_false,
              Bool.false_eq_true]
            have hm2 : connTargets (pushConn m x.name ⟨y.name, "main", 0⟩)
                (((y :: z :: rest).get ⟨j, by omega⟩).name) = [] := by
              rw [connTargets_pushConn_ne _ _ _ _ htgt_ne]
              simpa using hm
            have := ih (pushConn m x.name ⟨y.name, "main", 0⟩) j hj2 hif2 hprev2
              hnodup_tail hm2
            simpa using this
          · have hx2 : (!hasOutputs x.type) = true := by
              simp [Bool.not_eq_true] at hx ⊢
              exact hx
            simp only [Generator.connGo, hx2, if_true]
            have := ih m j hj2 hif2 hprev2 hnodup_tail (by simpa using hm)
            simpa using this

/-! ## Claim C1 -/

/-- C1 counterexample: on `[IF, A, B]` the builder records the two branch
connections with `index` 0 and `index` 1 — not both with target input
index 0 as the claim states. -/
theorem c1_counterexample :
    connTargets (Generator.createConnections exC1nodes) "IF" =
      [⟨"A", "main", 0⟩, ⟨"B", "main", 1⟩] ∧
    ¬ (∀ c ∈ connTargets (Generator.createConnections exC1nodes) "IF",
        c.index = 0) := by
  constructor
  · decide
  · decide

/-- C1 (amended): when node `i` is an `if` node followed by at least two
nodes, no earlier node is an `if` node (an immediately preceding branch
node would consume node `i` as a branch target and skip it), and display
names are distinct, the builder records exactly two outgoing connections
for node `i`: the next node with `index` 0 and the one after it with
`index` 1. -/
theorem c1_branch_two_connections (nodes : List N8nNode) (i : Nat)
    (hi : i + 2 < nodes.length)
    (hif : (nodes.get ⟨i, by omega⟩).type = "n8n-nodes-base.if")
    (hprev : ∀ j (hj : j < i), (nodes.get ⟨j, by omega⟩).type ≠ "n8n-nodes-base.if")
    (hnodup : (nodes.map (fun n => n.name)).Nodup) :
    connTargets (Generator.createConnections nodes)
        ((nodes.get ⟨i, by omega⟩).name) =
      [⟨(nodes.get ⟨i + 1, by omega⟩).name, "main", 0⟩,
       ⟨(nodes.get ⟨i + 2, hi⟩).name, "main", 1⟩] := by
  unfold Generator.createConnections
  exact connGo_if_entry nodes [] i hi hif hprev hnodup rfl

/-- C1 witness: the amended theorem applied to `[IF, A, B]`. -/
theorem c1_branch_two_connections_witness :
    connTargets (Generator.createConnections exC1nodes) "IF" =
      [⟨"A", "main", 0⟩, ⟨"B", "main", 1⟩] :=
  c1_branch_two_connections exC1nodes 0 (by decide) rfl
    (fun j hj => absurd hj (Nat.not_lt_zero j)) (by decide)

/-! ## Claim C7 -/

/-- C7: for a node list without branch nodes whose types all declare at
least one output, every node is wired to its successor and the connections
map holds exactly `len - 1` target entries in total. -/
theorem c7_sequential_wiring (nodes : List N8nNode)
    (hlen : 2 ≤ nodes.length)
    (hall : ∀ n ∈ nodes, n.type ≠ "n8n-nodes-base.if" ∧ hasOutputs n.type = true) :
    totalTargets (Generator.createConnections nodes) = nodes.length - 1 ∧
    ∀ i (hi : i + 1 < nodes.length),
      (⟨(nodes.get ⟨i + 1, hi⟩).name, "main", 0⟩ : N8nConnection) ∈
        connTargets (Generator.createConnections nodes)
          ((nodes.get ⟨i, Nat.lt_of_succ_lt hi⟩).name) := by
  constructor
  · unfold Generator.createConnections
    rw [connGo_count [] nodes hall]
    simp [totalTargets]
  · intro i hi
    exact connGo_wiring nodes hall [] i hi

/-- C7 witness: on `[S, T, U]` (three `set` nodes) the map has exactly two
target entries and the chain `S → T → U`. -/
theorem c7_sequential_wiring_witness :
    totalTargets (Generator.createConnections exC7nodes) = 2 ∧
    (⟨"T", "main", 0⟩ : N8nConnection) ∈
      connTargets (Generator.createConnections exC7nodes) "S" ∧
    (⟨"U", "main", 0⟩ : N8nConnection) ∈
      connTargets (Generator.createConnections exC7nodes) "T" :=
  ⟨(c7_sequential_wiring exC7nodes (by decide) (by decide)).1,
   (c7_sequential_wiring exC7nodes (by decide) (by decide)).2 0 (by decide),
   (c7_sequential_wiring exC7nodes (by decide) (by decide)).2 1 (by decide)⟩

/-! ## Claims C2 and C4 -/

theorem findSome?_eq_none_forall {α β : Type} (f : α → Option β) (l : List α)
    (h : l.findSome? f = none) : ∀ a ∈ l, f a = none := by
  induction l with
  | nil => intro a ha; simp at ha
  | cons x rest ih =>
    intro a ha
    rw [List.findSome?_cons] at h
    cases hf : f x with
    | some b => rw [hf] at h; simp at h
    | none =>
      rw [hf] at h
      rcases List.mem_cons.mp ha with rfl | ha
      · exact hf
      · exact ih h a ha

/-- C2 counterexample: on a graph whose only connection targets the missing
node `Ghost`, the generator's validator throws (models as `Except.error`) —
it does not return `valid=false` with an issue list. -/
theorem c2_counterexample :
    Generator.validateWorkflow exC2w =
      .error "Connection points to non-existent node: Ghost" := by
  rfl

/-- C2 (amended): on a workflow that passes the name/nodes/trigger checks
but has a connection to a missing display name, the generator's validator
throws an error naming the first missing target (rather than returning an
issue list; the rule-based validator that does return a list has no
dangling-connections rule at all). -/
theorem c2_dangling_throws (w : N8nWorkflow) (t : String)
    (hname : w.name ≠ "")
    (hnodes : w.nodes ≠ [])
    (htrig : w.nodes.any (fun n => hasTriggerType n.type) = true)
    (hdang : Generator.findDangling w = some t) :
    Generator.validateWorkflow w =
      .error ("Connection points to non-existent node: " ++ t) := by
  unfold Generator.validateWorkflow
  have h1 : (w.name == "") = false := beq_eq_false_iff_ne.mpr hname
  have h2 : w.nodes.isEmpty = false := by
    cases hw : w.nodes with
    | nil => exact absurd hw hnodes
    | cons a l => rfl
  simp [h1, h2, htrig, hdang]

/-- C2 witness: the amended theorem applied to the `Ghost` workflow. -/
theorem c2_dangling_throws_witness :
    Generator.validateWorkflow exC2w =
      .error ("Connection points to non-existent node: " ++ "Ghost") :=
  c2_dangling_throws exC2w "Ghost" (by decide) (List.cons_ne_nil _ _)
    (by decide) rfl

/-- C4 counterexample: on a workflow with an empty node list, the
rule-based validator returns `valid=false` with exactly the trigger and
error-handling issues — no has-nodes issue exists — while the generator's
validator throws `Workflow must have at least one node` without producing
any issue list (so the trigger issue never surfaces there either). -/
theorem c4_counterexample :
    CommonInfra.applyValidationRules exC4w ["all"] =
      (false, ["[trigger] Workflow must have at least one trigger node",
               "[errorHandling] Workflow lacks error handling mechanisms"]) ∧
    Generator.validateWorkflow exC4w =
      .error "Workflow must have at least one node" := by
  exact ⟨rfl, rfl⟩

/-- C4 (amended): running all rules of the rule-based validator on a
workflow with no nodes (well-formed name, no error-workflow setting)
returns `valid=false` with exactly the trigger and error-handling issues;
the rules run against the empty list without throwing, and there is no
has-nodes rule.  (The generator-internal validator instead throws on the
node-count check before ever reaching its trigger check.) -/
theorem c4_empty_nodes_validation (w : N8nWorkflow)
    (hnodes : w.nodes = [])
    (hname : 3 ≤ w.name.length)
    (herr : CommonInfra.settingsErrorWorkflow w = false) :
    CommonInfra.applyValidationRules w ["all"] =
      (false, ["[trigger] Workflow must have at least one trigger node",
               "[errorHandling] Workflow lacks error handling mechanisms"]) := by
  simp [CommonInfra.applyValidationRules, CommonInfra.computeResults,
    CommonInfra.ruleEntries, CommonInfra.triggerRule, CommonInfra.errorHandlingRule,
    CommonInfra.namingRule, CommonInfra.credentialsRule, hnodes, herr,
    Nat.not_lt.mpr hname]

/-- C4 witness: the amended theorem applied to the empty-node workflow. -/
theorem c4_empty_nodes_validation_witness :
    CommonInfra.applyValidationRules exC4w ["all"] =
      (false, ["[trigger] Workflow must have at least one trigger node",
               "[errorHandling] Workflow lacks error handling mechanisms"]) :=
  c4_empty_nodes_validation exC4w rfl (by decide) rfl

/-! ## Claim C10 -/

theorem validateWorkflow_ok_wellFormed (w : N8nWorkflow)
    (h : Generator.validateWorkflow w = .ok ()) : wellFormedWorkflow w := by
  unfold Generator.validateWorkflow at h
  by_cases h1 : (w.name == "") = true
  · simp [h1] at h
  by_cases h2 : w.nodes.isEmpty = true
  · simp [h1, h2] at h
  by_cases h3 : (w.nodes.any fun n => hasTriggerType n.type) = true
  · refine ⟨by simpa using h1, ?_, ?_, ?_⟩
    · cases hw : w.nodes with
      | nil => rw [hw] at h2; simp at h2
      | cons a l => exact List.cons_ne_nil a l
    · rcases List.any_eq_true.mp h3 with ⟨n, hn, hnt⟩
      exact ⟨n, hn, hnt⟩
    · simp only [h1, h2, h3, Bool.not_true, if_false, Bool.false_eq_true] at h
      cases hd : Generator.findDangling w with
      | some t => rw [hd] at h; simp at h
      | none =>
        intro e he c hc
        have houter := findSome?_eq_none_forall _ _ hd e he
        have hinner := findSome?_eq_none_forall _ _ houter c hc
        by_cases hany : (w.nodes.any fun n => n.name == c.node) = true
        · rcases List.any_eq_true.mp hany with ⟨n, hn, hne⟩
          exact ⟨n, hn, by simpa using hne⟩
        · simp [hany] at hinner
  · simp [h1, h2, h3] at h

/-- C10: whenever the natural-language workflow generator returns a success
payload, the returned workflow is structurally well-formed (non-empty name,
at least one node, a trigger/start node, and no dangling connection
target), because the generator runs its structural validator before
returning and turns a validation throw into an error result. -/
theorem c10_success_wellformed (input : Generator.GenInput) :
    wellFormedResult (Generator.generateWorkflow input) := by
  unfold Generator.generateWorkflow
  by_cases hd : (input.description == "") = true
  · simp [hd, wellFormedResult]
  · simp only [hd, if_false, Bool.false_eq_true]
    split
    · exact trivial
    · split
      · exact trivial
      · rename_i nodes heq u heq2
        cases u
        exact validateWorkflow_ok_wellFormed _ heq2

/-! ## Claim C9 -/

theorem triggerRule_pass_iff (wf : N8nWorkflow) :
    ((CommonInfra.triggerRule wf).pass = true ↔
      (CommonInfra.triggerRule wf).issues = []) := by
  unfold CommonInfra.triggerRule
  cases h : wf.nodes.any (fun node => hasTriggerType node.type) <;> simp [h]

theorem errorHandlingRule_pass_iff (wf : N8nWorkflow) :
    ((CommonInfra.errorHandlingRule wf).pass = true ↔
      (CommonInfra.errorHandlingRule wf).issues = []) := by
  unfold CommonInfra.errorHandlingRule
  cases h : (CommonInfra.settingsErrorWorkflow wf ||
    wf.nodes.any (fun node => node.continueOnFail)) <;> simp [h]

theorem namingRule_pass_iff (wf : N8nWorkflow) :
    ((CommonInfra.namingRule wf).pass = true ↔
      (CommonInfra.namingRule wf).issues = []) := by
  unfold CommonInfra.namingRule
  simp [List.isEmpty_iff]

theorem credentialsRule_pass_iff (wf : N8nWorkflow) :
    ((CommonInfra.credentialsRule wf).pass = true ↔
      (CommonInfra.credentialsRule wf).issues = []) := by
  unfold CommonInfra.credentialsRule
  simp [List.isEmpty_iff]

theorem ruleLookup_cases (r : String) (f : N8nWorkflow → RuleResult)
    (h : CommonInfra.ruleLookup r = some f) :
    f = CommonInfra.triggerRule ∨ f = CommonInfra.errorHandlingRule ∨
    f = CommonInfra.namingRule ∨ f = CommonInfra.credentialsRule := by
  unfold CommonInfra.ruleLookup lookupJ CommonInfra.ruleEntries at h
  simp only [List.find?] at h
  split at h
  · simp at h; tauto
  · split at h
    · simp at h; tauto
    · split at h
      · simp at h; tauto
      · split at h
        · simp at h; tauto
        · simp at h

theorem mem_upsert_cases {α : Type} (m : List (String × α)) (k : String) (v : α)
    (e : String × α) (h : e ∈ upsert m k v) : e ∈ m ∨ e = (k, v) := by
  induction m with
  | nil => simp [upsert] at h; tauto
  | cons x rest ih =>
    by_cases hx : x.1 == k
    · simp only [upsert, hx, if_true] at h
      rcases List.mem_cons.mp h with rfl | h
      · tauto
      · exact Or.inl (List.mem_cons_of_mem x h)
    · simp only [upsert, hx, if_false, Bool.false_eq_true] at h
      rcases List.mem_cons.mp h with rfl | h
      · exact Or.inl (List.mem_cons_self _ _)
      · rcases ih h with h | h
        · exact Or.inl (List.mem_cons_of_mem x h)
        · tauto

theorem rule_of_ruleLookup_pass_iff (wf : N8nWorkflow) (r : String)
    (f : N8nWorkflow → RuleResult) (h : CommonInfra.ruleLookup r = some f) :
    ((f wf).pass = true ↔ (f wf).issues = []) := by
  rcases ruleLookup_cases r f h with rfl | rfl | rfl | rfl
  · exact triggerRule_pass_iff wf
  · exact errorHandlingRule_pass_iff wf
  · exact namingRule_pass_iff wf
  · exact credentialsRule_pass_iff wf

theorem foldRules_inv (wf : N8nWorkflow) (names : List String)
    (acc : List (String × RuleResult))
    (hacc : ∀ e ∈ acc, (e.2.pass = true ↔ e.2.issues = []))
    (e : String × RuleResult)
    (he : e ∈ names.foldl (fun acc r =>
      match CommonInfra.ruleLookup r with
      | some f => upsert acc r (f wf)
      | none => acc) acc) :
    (e.2.pass = true ↔ e.2.issues = []) := by
  induction names generalizing acc with
  | nil => exact hacc e he
  | cons r rest ih =>
    simp only [List.foldl_cons] at he
    cases hl : CommonInfra.ruleLookup r with
    | none =>
      rw [hl] at he
      exact ih acc hacc he
    | some f =>
      rw [hl] at he
      refine ih _ ?_ he
      intro e2 he2
      rcases mem_upsert_cases _ _ _ _ he2 with h2 | h2
      · exact hacc e2 h2
      · rw [h2]
        exact rule_of_ruleLookup_pass_iff wf r f hl

theorem computeResults_inv (wf : N8nWorkflow) (validationRules : List String)
    (e : String × RuleResult) (he : e ∈ CommonInfra.computeResults wf validationRules) :
    (e.2.pass = true ↔ e.2.issues = []) := by
  unfold CommonInfra.computeResults at he
  by_cases hall : validationRules.contains "all"
  · simp only [hall, if_true] at he
    simp only [CommonInfra.ruleEntries, List.map, List.mem_cons,
      List.not_mem_nil, or_false] at he
    rcases he with he | he | he | he
    · rw [he]; exact triggerRule_pass_iff wf
    · rw [he]; exact errorHandlingRule_pass_iff wf
    · rw [he]; exact namingRule_pass_iff wf
    · rw [he]; exact credentialsRule_pass_iff wf
  · simp only [hall, if_false, Bool.false_eq_true] at he
    exact foldRules_inv wf validationRules [] (by simp) e he

theorem all_iff_flatten_nil (results : List (String × RuleResult))
    (hinv : ∀ e ∈ results, (e.2.pass = true ↔ e.2.issues = [])) :
    ((results.all (fun e => e.2.pass)) = true ↔
      ((results.map (fun e =>
        if e.2.pass then []
        else e.2.issues.map (fun i => "[" ++ e.1 ++ "] " ++ i))).flatten = [])) := by
  induction results with
  | nil => simp
  | cons e rest ih =>
    by_cases hp : e.2.pass = true
    · simp only [List.all_cons, hp, Bool.true_and, List.map_cons, if_true,
        List.flatten_cons, List.nil_append]
      exact ih (fun e2 he2 => hinv e2 (List.mem_cons_of_mem e he2))
    · have hiss : e.2.issues ≠ [] := by
        intro hnil
        exact hp ((hinv e (List.mem_cons_self e rest)).mpr hnil)
      simp only [List.all_cons, List.map_cons, List.flatten_cons]
      constructor
      · intro hand
        rw [Bool.eq_false_iff.mpr hp] at hand
        simp at hand
      · intro happ
        exfalso
        rcases List.append_eq_nil.mp happ with ⟨h1, _⟩
        rw [if_neg hp] at h1
        cases hiss2 : e.2.issues with
        | nil => exact hiss hiss2
        | cons a l => rw [hiss2] at h1; simp at h1

theorem contains_filter_rules (names : List String) :
    (names.filter (fun r => r == "all" || (CommonInfra.ruleLookup r).isSome)).contains
      "all" = names.contains "all" := by
  induction names with
  | nil => rfl
  | cons n rest ih =>
    by_cases hn : n = "all"
    · subst hn
      simp [List.contains_cons, ih]
    · have hne : (n == "all") = false := beq_eq_false_iff_ne.mpr hn
      have hne2 : ("all" == n) = false := beq_eq_false_iff_ne.mpr (Ne.symm hn)
      cases hl : (CommonInfra.ruleLookup n).isSome with
      | true =>
        simp only [List.filter_cons, hne, hl, Bool.false_or, if_true,
          List.contains_cons, hne2, Bool.false_or]
        exact ih
      | false =>
        simp only [List.filter_cons, hne, hl, Bool.false_or, if_false,
          Bool.false_eq_true, List.contains_cons, hne2]
        simpa [hne2] using ih

theorem fold_filter_rules (wf : N8nWorkflow) (names : List String)
    (acc : List (String × RuleResult)) :
    names.foldl (fun acc r =>
      match CommonInfra.ruleLookup r with
      | some f => upsert acc r (f wf)
      | none => acc) acc =
    (names.filter (fun r => r == "all" || (CommonInfra.ruleLookup r).isSome)).foldl
      (fun acc r =>
        match CommonInfra.ruleLookup r with
        | some f => upsert acc r (f wf)
        | none => acc) acc := by
  induction names generalizing acc with
  | nil => rfl
  | cons n rest ih =>
    by_cases hp : (n == "all" || (CommonInfra.ruleLookup n).isSome) = true
    · simp only [List.filter_cons, hp, if_true, List.foldl_cons]
      exact ih _
    · have hl : CommonInfra.ruleLookup n = none := by
        cases hl2 : CommonInfra.ruleLookup n with
        | none => rfl
        | some f => simp [hl2] at hp
      rw [List.filter_cons, if_neg hp]
      simp only [List.foldl_cons, hl]
      exact ih _

theorem computeResults_filter_rules (wf : N8nWorkflow) (names : List String) :
    CommonInfra.computeResults wf names =
      CommonInfra.computeResults wf (names.filter
        (fun r => r == "all" || (CommonInfra.ruleLookup r).isSome)) := by
  unfold CommonInfra.computeResults
  rw [contains_filter_rules]
  by_cases hall : names.contains "all" = true
  · rw [if_pos hall, if_pos hall]
  · rw [if_neg hall, if_neg hall]
    exact fold_filter_rules wf names []

/-- C9: requested rule names that match no known rule are silently ignored
(the result equals the one for the request with unknown names filtered
out), and the returned `valid` flag is true exactly when the collected
issue list of the rules that ran is empty. -/
theorem c9_rule_subset_behavior (wf : N8nWorkflow) (validationRules : List String) :
    CommonInfra.applyValidationRules wf validationRules =
      CommonInfra.applyValidationRules wf (validationRules.filter
        (fun r => r == "all" || (CommonInfra.ruleLookup r).isSome)) ∧
    ((CommonInfra.applyValidationRules wf validationRules).1 = true ↔
      (CommonInfra.applyValidationRules wf validationRules).2 = []) := by
  constructor
  · unfold CommonInfra.applyValidationRules
    rw [computeResults_filter_rules]
  · exact all_iff_flatten_nil _ (computeResults_inv wf validationRules)

/-! ## Claim C5 -/

theorem lookupJ_eq_some_mem {α : Type} (l : List (String × α)) (k : String) (v : α)
    (h : lookupJ l k = some v) : (k, v) ∈ l := by
  induction l with
  | nil => simp [lookupJ] at h
  | cons e rest ih =>
    by_cases he : e.1 == k
    · simp only [lookupJ, List.find?, he, Option.map_some] at h
      have hk : e.1 = k := by simpa using he
      have : e = (k, v) := by
        cases e
        simp at hk h ⊢
        exact ⟨hk, h⟩
      exact this ▸ List.mem_cons_self e rest
    · simp only [lookupJ, List.find?, he] at h
      exact List.mem_cons_of_mem e (ih h)

theorem lookupJ_eq_none_iff {α : Type} (l : List (String × α)) (k : String) :
    lookupJ l k = none ↔ k ∉ l.map Prod.fst := by
  induction l with
  | nil => simp [lookupJ]
  | cons e rest ih =>
    by_cases he : e.1 == k
    · have hk : e.1 = k := by simpa using he
      simp [lookupJ, List.find?, he, hk]
    · have hk : e.1 ≠ k := by simpa using he
      simp only [lookupJ, List.find?, he, List.map_cons, List.mem_cons]
      rw [lookupJ] at ih
      simp [ih, Ne.symm hk]

theorem foldl_upsert_not_mem {α : Type} (l : List (String × α))
    (acc : List (String × α)) (k : String) (hk : k ∉ l.map Prod.fst) :
    lookupJ (l.foldl (fun a e => upsert a e.1 e.2) acc) k = lookupJ acc k := by
  induction l generalizing acc with
  | nil => rfl
  | cons e rest ih =>
    simp only [List.map_cons, List.mem_cons] at hk
    push_neg at hk
    simp only [List.foldl_cons]
    rw [ih _ hk.2]
    exact lookupJ_upsert_ne acc e.1 k e.2 (Ne.symm hk.1)

theorem foldl_upsert_mem {α : Type} (l : List (String × α))
    (acc : List (String × α)) (k : String) (v : α)
    (hnodup : (l.map Prod.fst).Nodup) (hmem : (k, v) ∈ l) :
    lookupJ (l.foldl (fun a e => upsert a e.1 e.2) acc) k = some v := by
  induction l generalizing acc with
  | nil => simp at hmem
  | cons e rest ih =>
    simp only [List.map_cons, List.nodup_cons] at hnodup
    simp only [List.foldl_cons]
    rcases List.mem_cons.mp hmem with rfl | hmem
    · have hk : k ∉ rest.map Prod.fst := by simpa using hnodup.1
      rw [foldl_upsert_not_mem rest _ k hk]
      exact lookupJ_upsert_self acc k v
    · exact ih _ hnodup.2 hmem

/-- C5: `createNode` resolves parameters by a top-level merge of the
overrides over the type's defaults — an override key wins, and a key
present only in the defaults keeps its default value. -/
theorem c5_instantiate_merge (defn : NodeDefinition) (id : String)
    (pos : Int × Int) (custom : List (String × JValue)) (nm : Option String)
    (hd : (defn.defaultParameters.map Prod.fst).Nodup)
    (hc : (custom.map Prod.fst).Nodup) :
    (∀ k v, lookupJ custom k = some v →
      lookupJ (createNode defn id pos custom nm).parameters k = some v) ∧
    (∀ k, lookupJ custom k = none →
      lookupJ (createNode defn id pos custom nm).parameters k =
        lookupJ defn.defaultParameters k) := by
  have hsplit : (createNode defn id pos custom nm).parameters =
      custom.foldl (fun a e => upsert a e.1 e.2)
        (defn.defaultParameters.foldl (fun a e => upsert a e.1 e.2) []) := by
    show spreadMerge defn.defaultParameters custom = _
    unfold spreadMerge
    rw [List.foldl_append]
  constructor
  · intro k v hkv
    rw [hsplit]
    exact foldl_upsert_mem custom _ k v hc (lookupJ_eq_some_mem custom k v hkv)
  · intro k hk
    rw [hsplit]
    rw [foldl_upsert_not_mem custom _ k ((lookupJ_eq_none_iff custom k).mp hk)]
    cases hdk : lookupJ defn.defaultParameters k with
    | some v =>
      exact foldl_upsert_mem _ _ k v hd (lookupJ_eq_some_mem _ k v hdk)
    | none =>
      rw [foldl_upsert_not_mem _ _ k ((lookupJ_eq_none_iff _ k).mp hdk)]
      rfl

/-- C5 witness: overriding `{method: "POST"}` over defaults
`{url: "", method: "GET"}` yields `{url: "", method: "POST"}`. -/
theorem c5_instantiate_merge_witness :
    lookupJ (createNode exC5def "httpRequest_1" (250, 300)
      [("method", JValue.str "POST")] none).parameters "method" =
      some (JValue.str "POST") ∧
    lookupJ (createNode exC5def "httpRequest_1" (250, 300)
      [("method", JValue.str "POST")] none).parameters "url" =
      some (JValue.str "") ∧
    (createNode exC5def "httpRequest_1" (250, 300)
      [("method", JValue.str "POST")] none).parameters =
      [("url", JValue.str ""), ("method", JValue.str "POST")] :=
  ⟨(c5_instantiate_merge exC5def "httpRequest_1" (250, 300)
      [("method", JValue.str "POST")] none (by decide) (by decide)).1
      "method" (JValue.str "POST") rfl,
   (c5_instantiate_merge exC5def "httpRequest_1" (250, 300)
      [("method", JValue.str "POST")] none (by decide) (by decide)).2
      "url" rfl,
   rfl⟩

/-! ## Claim C6 -/

theorem nodeDefList_types : ∀ e ∈ nodeDefList, e.2.type = e.1 := by
  decide

theorem nodeDefinitions_type (t : String) (d : NodeDefinition)
    (h : nodeDefinitions t = some d) : d.type = t := by
  unfold nodeDefinitions at h
  exact nodeDefList_types (t, d) (lookupJ_eq_some_mem nodeDefList t d h)

theorem manualLoop_types (req : Generator.WorkflowRequirements) :
    ∀ (ts : List String) (idx : Nat) (x : Int),
      (Generator.manualLoop req ts idx x).map (fun n => n.type) =
        ts.filter (fun t => (nodeDefinitions t).isSome) := by
  intro ts
  induction ts with
  | nil => intro idx x; rfl
  | cons t rest ih =>
    intro idx x
    cases hd : nodeDefinitions t with
    | none =>
      simp only [Generator.manualLoop, hd, List.filter_cons, Option.isSome_none,
        Bool.false_eq_true, if_false]
      exact ih (idx + 1) x
    | some d =>
      simp only [Generator.manualLoop, hd, List.filter_cons, Option.isSome_some,
        if_true, List.map_cons]
      rw [ih (idx + 1) (x + 200)]
      have : (createNode d (createNodeId t (idx + 1)) (x, 300)
          (Generator.manualCustom t req).1 (Generator.manualCustom t req).2).type =
          d.type := rfl
      rw [this, nodeDefinitions_type t d hd]

/-- C6: on the manual build path (no template id set), the sequential
builder produces exactly one node per catalog-known identifier, in input
order; unknown identifiers are silently skipped (never an error). -/
theorem c6_unknown_identifiers_skipped (nodeTypes : List String)
    (req : Generator.WorkflowRequirements)
    (htpl : Generator.templateFor req = none) :
    ∃ ns, Generator.createNodeStructure nodeTypes req = .ok ns ∧
      ns.map (fun n => n.type) =
        nodeTypes.filter (fun t => (nodeDefinitions t).isSome) := by
  unfold Generator.createNodeStructure
  rw [htpl]
  exact ⟨_, rfl, manualLoop_types req nodeTypes 0 100⟩

/-- C6 witness: a list with one unknown identifier yields exactly the two
catalog nodes, in order. -/
theorem c6_unknown_identifiers_skipped_witness :
    ∃ ns, Generator.createNodeStructure
        ["n8n-nodes-base.start", "custom.unknownNode", "n8n-nodes-base.set"]
        exC6req = .ok ns ∧
      ns.map (fun n => n.type) = ["n8n-nodes-base.start", "n8n-nodes-base.set"] := by
  obtain ⟨ns, h1, h2⟩ := c6_unknown_identifiers_skipped
    ["n8n-nodes-base.start", "custom.unknownNode", "n8n-nodes-base.set"]
    exC6req rfl
  exact ⟨ns, h1, h2.trans (by decide)⟩

/-! ## Claim C8 -/

/-- C8: a template-application request with a non-empty name and a template
id outside the fixed catalog returns the named not-found error; no workflow
document is built or handed to the persistence collaborator (the error
outcome carries none). -/
theorem c8_unknown_template_not_found (input : ApplyTemplateInput)
    (hid : input.template_id ≠ "")
    (hname : input.name ≠ "")
    (hunknown : input.template_id ∉
      ["api-request", "social-media", "data-processing", "notification"]) :
    ApplyTemplateTool.applyTemplate input =
      .error ("Template with ID \"" ++ input.template_id ++ "\" not found") := by
  unfold ApplyTemplateTool.applyTemplate
  have h1 : (input.template_id == "") = false := beq_eq_false_iff_ne.mpr hid
  have h2 : (input.name == "") = false := beq_eq_false_iff_ne.mpr hname
  simp only [List.mem_cons, List.not_mem_nil, or_false, not_or] at hunknown
  have ha : (input.template_id == "api-request") = false :=
    beq_eq_false_iff_ne.mpr hunknown.1
  have hb : (input.template_id == "social-media") = false :=
    beq_eq_false_iff_ne.mpr hunknown.2.1
  have hc : (input.template_id == "data-processing") = false :=
    beq_eq_false_iff_ne.mpr hunknown.2.2.1
  have hd : (input.template_id == "notification") = false :=
    beq_eq_false_iff_ne.mpr hunknown.2.2.2
  simp [h1, h2, ha, hb, hc, hd]

/-- C8 witness: the scenario `expand("unknown-template-id", "X", …)`. -/
theorem c8_unknown_template_not_found_witness :
    ApplyTemplateTool.applyTemplate
        { template_id := "unknown-template-id", name := "X" } =
      .error ("Template with ID \"" ++ "unknown-template-id" ++ "\" not found") :=
  c8_unknown_template_not_found
    { template_id := "unknown-template-id", name := "X" }
    (by decide) (by decide) (by decide)

/-! ## Claim C3 -/

theorem platformNode_name (p : String) (x : Int) :
    (SocialPost.platformNode p x).name = SocialPost.postNodeName p := by
  unfold SocialPost.platformNode
  repeat' split
  all_goals rfl

theorem socialLoop_snd (p : String) (rest : List String) (conns : ConnMap)
    (lastName : String) (x : Int) :
    (SocialPost.socialLoop (p :: rest) conns lastName x).2 =
      (SocialPost.socialLoop rest
        (pushConn conns lastName ⟨SocialPost.postNodeName p, "main", 0⟩)
        (SocialPost.postNodeName p) (x + 200)).2 := by
  simp only [SocialPost.socialLoop, platformNode_name]

theorem socialLoop_preserve (ps : List String) :
    ∀ (conns : ConnMap) (lastName s : String) (x : Int),
      s ≠ lastName → (∀ p ∈ ps, SocialPost.postNodeName p ≠ s) →
      connTargets (SocialPost.socialLoop ps conns lastName x).2 s =
        connTargets conns s := by
  induction ps with
  | nil => intro conns lastName s x _ _; rfl
  | cons p rest ih =>
    intro conns lastName s x hlast hmem
    rw [socialLoop_snd]
    rw [ih _ _ _ _ (Ne.symm (hmem p (List.mem_cons_self p rest)))
      (fun q hq => hmem q (List.mem_cons_of_mem p hq))]
    exact connTargets_pushConn_ne conns lastName s _ hlast

theorem socialLoop_chain (ps : List String) :
    ∀ (conns : ConnMap) (lastName : String) (x : Int),
      (ps.map SocialPost.postNodeName).Nodup →
      lastName ∉ ps.map SocialPost.postNodeName →
      (∀ p ∈ ps, connTargets conns (SocialPost.postNodeName p) = []) →
      ∀ i (hi : i + 1 < ps.length),
        connTargets (SocialPost.socialLoop ps conns lastName x).2
          (SocialPost.postNodeName (ps.get ⟨i, by omega⟩)) =
          [⟨SocialPost.postNodeName (ps.get ⟨i + 1, hi⟩), "main", 0⟩] := by
  induction ps with
  | nil => intro conns lastName x _ _ _ i hi; simp at hi
  | cons p rest ih =>
    intro conns lastName x hnodup hlast hempty i hi
    have hsplit : (SocialPost.postNodeName p ∉ rest.map SocialPost.postNodeName) ∧
        (rest.map SocialPost.postNodeName).Nodup := by
      simpa using hnodup
    cases i with
    | zero =>
      cases rest with
      | nil => simp at hi
      | cons q rest2 =>
        rw [socialLoop_snd, socialLoop_snd]
        simp only [List.get]
        rw [socialLoop_preserve rest2 _ _ _ _ ?hq ?hrest2]
        case hq =>
          intro heq
          exact hsplit.1 (heq ▸ List.mem_map_of_mem _ (List.mem_cons_self q rest2))
        case hrest2 =>
          intro r hr heq
          exact hsplit.1 (heq ▸ List.mem_map_of_mem _ (List.mem_cons_of_mem q hr))
        rw [connTargets_pushConn_self]
        rw [connTargets_pushConn_ne _ _ _ _ ?hpl]
        case hpl =>
          intro heq
          exact hlast (heq ▸ List.mem_map_of_mem _ (List.mem_cons_self p _))
        rw [hempty p (List.mem_cons_self p _)]
        rfl
    | succ j =>
      cases rest with
      | nil => simp at hi
      | cons q rest2 =>
        have hj : j + 1 < (q :: rest2).length := by
          simpa [Nat.succ_lt_succ_iff] using hi
        rw [socialLoop_snd]
        have hempty2 : ∀ r ∈ q :: rest2,
            connTargets (pushConn conns lastName
              ⟨SocialPost.postNodeName p, "main", 0⟩)
              (SocialPost.postNodeName r) = [] := by
          intro r hr
          rw [connTargets_pushConn_ne _ _ _ _ ?hrl]
          case hrl =>
            intro heq
            exact hlast (heq ▸ List.mem_map_of_mem _ (List.mem_cons_of_mem p hr))
          exact hempty r (List.mem_cons_of_mem p hr)
        have := ih _ _ (x + 200) hsplit.2 hsplit.1 hempty2 j hj
        simpa using this

/-- C3 counterexample: for platforms `["twitter", "linkedin"]` the content
source has exactly one outgoing connection (to `Post to Twitter`); the
second platform node is not fed from the content source, so there is no
fan-out. -/
theorem c3_counterexample :
    connTargets (connsOf (SocialPost.createSocialPostWorkflow exC3input))
      "Content Source" = [⟨"Post to Twitter", "main", 0⟩] ∧
    (⟨"Post to Linkedin", "main", 0⟩ : N8nConnection) ∉
      connTargets (connsOf (SocialPost.createSocialPostWorkflow exC3input))
        "Content Source" ∧
    connTargets (connsOf (SocialPost.createSocialPostWorkflow exC3input))
      "Post to Twitter" = [⟨"Post to Linkedin", "main", 0⟩] := by
  refine ⟨by decide, by decide, by decide⟩

/-- C3 (amended): for every posting request with at least one platform
(and platform node names distinct and different from the fixed `Start` /
`Content Source` names), the wiring is a sequential chain: the content
source feeds exactly the first platform node, and each platform node feeds
exactly the next one. -/
theorem c3_sequential_chain (input : SocialPostInput)
    (hname : input.name ≠ "")
    (hplat : input.platforms ≠ [])
    (hnodup : (input.platforms.map SocialPost.postNodeName).Nodup)
    (hcs : ∀ p ∈ input.platforms,
      SocialPost.postNodeName p ≠ "Content Source" ∧
      SocialPost.postNodeName p ≠ "Start") :
    ∃ wf, SocialPost.createSocialPostWorkflow input = .created wf ∧
      connTargets wf.connections "Content Source" =
        [⟨SocialPost.postNodeName (input.platforms.headD ""), "main", 0⟩] ∧
      ∀ i (hi : i + 1 < input.platforms.length),
        connTargets wf.connections
            (SocialPost.postNodeName (input.platforms.get ⟨i, by omega⟩)) =
          [⟨SocialPost.postNodeName (input.platforms.get ⟨i + 1, hi⟩),
            "main", 0⟩] := by
  have h1 : (input.name == "") = false := beq_eq_false_iff_ne.mpr hname
  have h2 : input.platforms.isEmpty = false := by
    cases hp : input.platforms with
    | nil => exact absurd hp hplat
    | cons a l => rfl
  unfold SocialPost.createSocialPostWorkflow
  rw [h1, h2]
  simp only [Bool.false_eq_true, if_false]
  refine ⟨_, rfl, ?_, ?_⟩
  · cases hp : input.platforms with
    | nil => exact absurd hp hplat
    | cons p rest =>
      have hcs2 := hp ▸ hcs
      rw [socialLoop_snd]
      rw [socialLoop_preserve rest _ _ _ _ ?hne ?hrest]
      case hne =>
        exact Ne.symm (hcs2 p (List.mem_cons_self p rest)).1
      case hrest =>
        exact fun q hq => (hcs2 q (List.mem_cons_of_mem p hq)).1
      rw [connTargets_pushConn_self]
      have hcs0 : connTargets [("Start", [⟨"Content Source", "main", 0⟩])]
          "Content Source" = [] := by decide
      rw [hcs0]
      simp
  · intro i hi
    refine (socialLoop_chain input.platforms _ "Content Source" 650 hnodup
      ?hl ?he i hi)
    case hl =>
      intro hmem
      rcases List.mem_map.mp hmem with ⟨p, hp, hpe⟩
      exact (hcs p hp).1 hpe
    case he =>
      intro p hp
      have hne : ("Start" == SocialPost.postNodeName p) = false :=
        beq_eq_false_iff_ne.mpr (Ne.symm (hcs p hp).2)
      simp [connTargets, List.find?, hne]

/-- C3 witness: the amended chain shape on `["twitter", "linkedin"]`. -/
theorem c3_sequential_chain_witness :
    ∃ wf, SocialPost.createSocialPostWorkflow exC3input = .created wf ∧
      connTargets wf.connections "Content Source" =
        [⟨"Post to Twitter", "main", 0⟩] ∧
      connTargets wf.connections "Post to Twitter" =
        [⟨"Post to Linkedin", "main", 0⟩] := by
  obtain ⟨wf, h1, h2, h3⟩ := c3_sequential_chain exC3input (by decide)
    (by decide) (by decide) (by decide)
  exact ⟨wf, h1, h2, h3 0 (by decide)⟩

/-- The generator's success branch is reachable (so the C10 statement is
not vacuous): a plain keyword-free description produces a data payload. -/
theorem generateWorkflow_success_reachable :
    isDataResult (Generator.generateWorkflow { description := "hello world" }) =
      true := by
  rfl
